import Mathlib

/-!
Verification development for the multi-tenant OIDC authentication broker
(`terraform/modules/agentcore-bff/src/auth_handler.py` and
`terraform/modules/agentcore-bff/src/authorizer.py`).

The Python handlers are shallowly embedded as executable Lean functions.
Python strings become `String`, dicts become association lists, the DynamoDB
table becomes an association list keyed by the (pk, sk) pair, wall-clock time
becomes an explicit `now : Int` parameter, and every network interaction
(token-endpoint exchange, secret fetch) becomes an explicit parameter holding
the parsed response, `none` meaning the call failed.  Paths on which the
Python code raises an uncaught exception are modelled as `Except.error`.
-/

/-! ### Python string primitives

Models of the Python `str` operations the two handlers use.  Everything is
defined by structural recursion on `List Char` so that concrete instances
reduce by `rfl`/`decide`. -/

/-- Model of Python `str.split(sep)` for a single-character separator. -/
def pySplit (sep : Char) : List Char → List (List Char)
  | [] => [[]]
  | c :: rest =>
    if c = sep then [] :: pySplit sep rest
    else
      match pySplit sep rest with
      | [] => [[c]]
      | h :: t => (c :: h) :: t

/-- String-level wrapper for `pySplit`. -/
def pySplitStr (sep : Char) (s : String) : List String :=
  (pySplit sep s.data).map String.mk

/-- Model of Python `str.split(sep, 1)` under the guarantee that `sep` occurs:
the part before the first separator and everything after it. -/
def pySplit1 (sep : Char) (s : String) : String × String :=
  let pre := s.data.takeWhile (· ≠ sep)
  (String.mk pre, String.mk (s.data.drop (pre.length + 1)))

/-- Model of the Python `in` test for a single character in a string. -/
def containsChar (c : Char) (s : String) : Bool :=
  s.data.any (· = c)

/-- Model of Python `str.strip()` on a character list. -/
def pyStripL (l : List Char) : List Char :=
  ((l.dropWhile Char.isWhitespace).reverse.dropWhile Char.isWhitespace).reverse

/-- Model of Python `str.strip()`. -/
def pyStrip (s : String) : String := String.mk (pyStripL s.data)

/-- Model of Python `str.lower()` (the handlers only lower ASCII header names). -/
def pyLower (s : String) : String := String.mk (s.data.map Char.toLower)

/-- Python dict lookup `d.get(k)` over an association list. -/
def dictGet {α : Type} : List (String × α) → String → Option α
  | [], _ => none
  | kv :: rest, k => if kv.1 = k then some kv.2 else dictGet rest k

/-- Python dict insertion `d[k] = v`: overwrite the existing binding in place,
else append (insertion-ordered, as Python dicts are). -/
def dictSet {α : Type} : List (String × α) → String → α → List (String × α)
  | [], k, v => [(k, v)]
  | kv :: rest, k, v => if kv.1 = k then (k, v) :: rest else kv :: dictSet rest k v

/-- Python truthiness of an optional string (`None` and `""` are falsy). -/
def truthyO (o : Option String) : Bool :=
  match o with
  | none => false
  | some s => s ≠ ""

/-- Model of the Python idiom `a or b` on optional strings. -/
def pyOr (a b : Option String) : Option String :=
  match a with
  | some s => if s ≠ "" then some s else b
  | none => b

/-! ### Base64 (URL-safe alphabet)

Models of the Python stdlib functions `base64.urlsafe_b64encode` and
`base64.urlsafe_b64decode` that the handlers call.  The decoder accepts
well-formed inputs (padding only at the end); inputs the stdlib would also
reject, or exotic inputs with interior padding, decode to `none`. -/

/-- URL-safe base64 alphabet, in index order. -/
def urlsafeAlphabet : List Char :=
  "ABCDEFGHIJKLMNOPQRSTUVWXYZabcdefghijklmnopqrstuvwxyz0123456789-_".data

/-- Character for a 6-bit group. -/
def b64Char (n : Nat) : Char := urlsafeAlphabet.getD n '?'

/-- URL-safe base64 encoding of a byte list, with `=` padding. -/
def b64urlEncode : List Nat → List Char
  | [] => []
  | [b1] => [b64Char (b1 / 4), b64Char (b1 % 4 * 16), '=', '=']
  | [b1, b2] => [b64Char (b1 / 4), b64Char (b1 % 4 * 16 + b2 / 16), b64Char (b2 % 16 * 4), '=']
  | b1 :: b2 :: b3 :: rest =>
    b64Char (b1 / 4) :: b64Char (b1 % 4 * 16 + b2 / 16) ::
    b64Char (b2 % 16 * 4 + b3 / 64) :: b64Char (b3 % 64) :: b64urlEncode rest

/-- Value of a base64 character in the URL-safe alphabet (after translation,
`+`/`/` also accepted as in the standard alphabet). -/
def b64Val (c : Char) : Option Nat :=
  if c = '+' then some 62
  else if c = '/' then some 63
  else
    match urlsafeAlphabet.indexOf? c with
    | some i => some i
    | none => none

/-- Decode 4-character base64 groups into bytes; trailing padding of one or two
`=` is allowed in the final group only. -/
def b64DecodeGroups : List Char → Option (List Nat)
  | [] => some []
  | c1 :: c2 :: c3 :: c4 :: rest =>
    match b64Val c1, b64Val c2 with
    | some v1, some v2 =>
      if c3 = '=' then
        if c4 = '=' ∧ rest = [] then some [v1 * 4 + v2 / 16] else none
      else
        match b64Val c3 with
        | some v3 =>
          if c4 = '=' then
            if rest = [] then some [v1 * 4 + v2 / 16, v2 % 16 * 16 + v3 / 4] else none
          else
            match b64Val c4 with
            | some v4 =>
              (b64DecodeGroups rest).map
                (fun bs => (v1 * 4 + v2 / 16) :: (v2 % 16 * 16 + v3 / 4) :: (v3 % 4 * 64 + v4) :: bs)
            | none => none
        | none => none
    | _, _ => none
  | _ => none

/-- Model of `base64.urlsafe_b64decode`: characters outside the alphabet are
discarded, then the remainder must be a run of 4-character groups. -/
def b64urlDecode (s : String) : Option (List Nat) :=
  b64DecodeGroups (s.data.filter (fun c => (b64Val c).isSome ∨ c = '='))

/-- Model of `bytes.decode("utf-8")` restricted to ASCII payloads (every token
payload this module decodes is ASCII JSON); non-ASCII bytes decode to `none`. -/
def asciiDecode : List Nat → Option (List Char)
  | [] => some []
  | b :: rest =>
    if b < 128 then (asciiDecode rest).map (fun cs => Char.ofNat b :: cs)
    else none

/-- Model of `str.encode("ascii")` (the PKCE verifier is always ASCII). -/
def asciiBytes (s : String) : List Nat := s.data.map Char.toNat

/-! ### SHA-256

Model of the stdlib `hashlib.sha256`, translated from FIPS 180-4; words are
`Nat` reduced mod `2^32`. -/

/-- Reduce to a 32-bit word. -/
def mod32 (x : Nat) : Nat := x % 4294967296

/-- Right rotation of a 32-bit word. -/
def rotr (n x : Nat) : Nat := mod32 ((x >>> n) ||| (x <<< (32 - n)))

/-- SHA-256 round constants. -/
def sha256K : List Nat :=
  [1116352408, 1899447441, 3049323471, 3921009573, 961987163, 1508970993, 2453635748, 2870763221,
   3624381080, 310598401, 607225278, 1426881987, 1925078388, 2162078206, 2614888103, 3248222580,
   3835390401, 4022224774, 264347078, 604807628, 770255983, 1249150122, 1555081692, 1996064986,
   2554220882, 2821834349, 2952996808, 3210313671, 3336571891, 3584528711, 113926993, 338241895,
   666307205, 773529912, 1294757372, 1396182291, 1695183700, 1986661051, 2177026350, 2456956037,
   2730485921, 2820302411, 3259730800, 3345764771, 3516065817, 3600352804, 4094571909, 275423344,
   430227734, 506948616, 659060556, 883997877, 958139571, 1322822218, 1537002063, 1747873779,
   1955562222, 2024104815, 2227730452, 2361852424, 2428436474, 2756734187, 3204031479, 3329325298]

/-- SHA-256 initial hash value. -/
def sha256H0 : List Nat :=
  [1779033703, 3144134277, 1013904242, 2773480762, 1359893119, 2600822924, 528734635, 1541459225]

/-- Message padding: `0x80`, zeros to 56 mod 64, then the 8-byte big-endian bit length. -/
def sha256Pad (msg : List Nat) : List Nat :=
  let L := msg.length
  let r := (L + 1) % 64
  let zeros := (64 + 56 - r) % 64
  let bits := 8 * L
  msg ++ 0x80 :: List.replicate zeros 0 ++
    [bits >>> 56 % 256, bits >>> 48 % 256, bits >>> 40 % 256, bits >>> 32 % 256,
     bits >>> 24 % 256, bits >>> 16 % 256, bits >>> 8 % 256, bits % 256]

/-- Split a padded message into 64-byte blocks (fuel-based structural
recursion so that concrete digests reduce inside the kernel; the fuel is the
message length, which bounds the number of blocks). -/
def toBlocksFuel : Nat → List Nat → List (List Nat)
  | 0, _ => []
  | _, [] => []
  | fuel + 1, l => l.take 64 :: toBlocksFuel fuel (l.drop 64)

/-- Split a padded message into 64-byte blocks. -/
def toBlocks (l : List Nat) : List (List Nat) := toBlocksFuel l.length l

/-- Big-endian bytes to 32-bit words. -/
def bytesToWords : List Nat → List Nat
  | b1 :: b2 :: b3 :: b4 :: rest =>
    (b1 * 16777216 + b2 * 65536 + b3 * 256 + b4) :: bytesToWords rest
  | _ => []

/-- Big-endian bytes of a 32-bit word. -/
def wordBytes (w : Nat) : List Nat :=
  [w >>> 24 % 256, w >>> 16 % 256, w >>> 8 % 256, w % 256]

/-- One step of the message-schedule extension; `w` holds the schedule so far,
most recent word first. -/
def scheduleStep (w : List Nat) : Nat :=
  let x2 := w.getD 1 0
  let x7 := w.getD 6 0
  let x15 := w.getD 14 0
  let x16 := w.getD 15 0
  mod32 (x16 + (rotr 7 x15 ^^^ rotr 18 x15 ^^^ (x15 >>> 3)) + x7 +
         (rotr 17 x2 ^^^ rotr 19 x2 ^^^ (x2 >>> 10)))

/-- Extend the (reversed) schedule by `n` words. -/
def extendSched : Nat → List Nat → List Nat
  | 0, w => w
  | n + 1, w => extendSched n (scheduleStep (w.getD 0 0 :: w.drop 1) :: w)

/-- Full 64-word message schedule of a block. -/
def sha256Schedule (block : List Nat) : List Nat :=
  (extendSched 48 (bytesToWords block).reverse).reverse

/-- One compression round; the state is the 8 working variables. -/
def compressStep (st : List Nat) (wk : Nat × Nat) : List Nat :=
  match st with
  | [a, b, c, d, e, f, g, h] =>
    let S1 := rotr 6 e ^^^ rotr 11 e ^^^ rotr 25 e
    let ch := (e &&& f) ^^^ ((e ^^^ 4294967295) &&& g)
    let temp1 := mod32 (h + S1 + ch + wk.2 + wk.1)
    let S0 := rotr 2 a ^^^ rotr 13 a ^^^ rotr 22 a
    let maj := (a &&& b) ^^^ (a &&& c) ^^^ (b &&& c)
    let temp2 := mod32 (S0 + maj)
    [mod32 (temp1 + temp2), a, b, c, mod32 (d + temp1), e, f, g]
  | _ => st

/-- Process one 64-byte block. -/
def sha256Block (h : List Nat) (block : List Nat) : List Nat :=
  let sched := sha256Schedule block
  let st := (sched.zip sha256K).foldl compressStep h
  List.zipWith (fun x y => mod32 (x + y)) h st

/-- SHA-256 digest (32 bytes) of a byte list. -/
def sha256 (msg : List Nat) : List Nat :=
  (((toBlocks (sha256Pad msg)).foldl sha256Block sha256H0).map wordBytes).flatten

/-! ### JSON (restricted)

Model of `json.loads` restricted to flat objects with string keys and string
values and no escape sequences — the shape of every JWT claims payload this
module reads.  Anything outside that fragment parses to `none`. -/

/-- Left and right brace characters, by code point. -/
def lbrace : Char := Char.ofNat 123

/-- Right brace character. -/
def rbrace : Char := Char.ofNat 125

/-- JSON whitespace. -/
def jsonWs (c : Char) : Bool := c = ' ' ∨ c = '\t' ∨ c = '\n' ∨ c = '\r'

/-- Drop leading JSON whitespace. -/
def skipWs (l : List Char) : List Char := l.dropWhile jsonWs

/-- Parse the body of a string literal after the opening quote (no escapes). -/
def parseJStringBody : List Char → Option (List Char × List Char)
  | [] => none
  | c :: rest =>
    if c = '"' then some ([], rest)
    else if c = '\\' then none
    else (parseJStringBody rest).map (fun p => (c :: p.1, p.2))

/-- Parse a JSON string literal. -/
def parseJString : List Char → Option (List Char × List Char)
  | '"' :: rest => parseJStringBody rest
  | _ => none

/-- Parse `"key":"value"` pairs separated by commas, up to the closing brace. -/
def parsePairs : Nat → List (String × String) → List Char → Option (List (String × String) × List Char)
  | 0, _, _ => none
  | fuel + 1, acc, l =>
    match parseJString (skipWs l) with
    | none => none
    | some (k, r1) =>
      match skipWs r1 with
      | ':' :: r2 =>
        match parseJString (skipWs r2) with
        | none => none
        | some (v, r3) =>
          let acc' := dictSet acc (String.mk k) (String.mk v)
          match skipWs r3 with
          | ',' :: r4 => parsePairs fuel acc' r4
          | c :: r4 => if c = rbrace then some (acc', r4) else none
          | [] => none
      | _ => none

/-- Restricted model of `json.loads` for a flat string-valued object. -/
def jsonLoadsObj (s : String) : Option (List (String × String)) :=
  match skipWs s.data with
  | c :: rest =>
    if c = lbrace then
      match skipWs rest with
      | d :: rest2 =>
        if d = rbrace then (if skipWs rest2 = [] then some [] else none)
        else
          match parsePairs (rest.length + 1) [] rest with
          | some (dict, rem) => if skipWs rem = [] then some dict else none
          | none => none
      | [] => none
    else none
  | [] => none

example : jsonLoadsObj "" = none := by decide

/-! ### Durable key-value store

Model of the DynamoDB table: items are attribute association lists, the table
maps the composite (pk, sk) key to an item.  The handlers run sequentially, so
store operations are plain functional updates. -/

/-- DynamoDB attribute value as the handlers use them: string, number, or null. -/
inductive AttrVal where
  | s : String → AttrVal
  | n : Int → AttrVal
  | null : AttrVal
deriving DecidableEq

/-- An item: attribute name to value. -/
abbrev Item := List (String × AttrVal)

/-- The table: composite (pk, sk) key to item. -/
abbrev Store := List ((String × String) × Item)

/-- Python `item.get(field)`. -/
def Item.get : Item → String → Option AttrVal
  | [], _ => none
  | kv :: rest, f => if kv.1 = f then some kv.2 else Item.get rest f

/-- String conversion `str(v)` of an attribute value (`str(None) = "None"`). -/
def attrStr : AttrVal → String
  | .s s => s
  | .n i => toString i
  | .null => "None"

/-- Model of `str(item.get(field, default))` for a string default. -/
def attrStrD (o : Option AttrVal) (d : String) : String :=
  match o with
  | some a => attrStr a
  | none => d

/-- Python truthiness of an attribute value. -/
def attrTruthy : AttrVal → Bool
  | .s s => s ≠ ""
  | .n i => i ≠ 0
  | .null => false

/-- Python truthiness of `item.get(field)`. -/
def attrTruthyO (o : Option AttrVal) : Bool :=
  match o with
  | some a => attrTruthy a
  | none => false

/-- Table `get_item` by composite key. -/
def Store.getItem : Store → String → String → Option Item
  | [], _, _ => none
  | e :: rest, pk, sk => if e.1 = (pk, sk) then some e.2 else Store.getItem rest pk sk

/-- Table `put_item` (unconditional): overwrite the item at the key, else insert. -/
def Store.putItem : Store → String → String → Item → Store
  | [], pk, sk, it => [((pk, sk), it)]
  | e :: rest, pk, sk, it =>
    if e.1 = (pk, sk) then ((pk, sk), it) :: rest else e :: Store.putItem rest pk sk it

/-- Table `delete_item`. -/
def Store.deleteItem : Store → String → String → Store
  | [], _, _ => []
  | e :: rest, pk, sk =>
    if e.1 = (pk, sk) then Store.deleteItem rest pk sk else e :: Store.deleteItem rest pk sk

/-- Set one attribute of an item (part of an `UpdateExpression`). -/
def Item.setAttr : Item → String → AttrVal → Item
  | [], f, v => [(f, v)]
  | kv :: rest, f, v => if kv.1 = f then (f, v) :: rest else kv :: Item.setAttr rest f v

/-- Table `update_item` with `SET access_token, refresh_token, expires_at`
(creates the item from its key when absent, as DynamoDB does). -/
def Store.updateSessionTokens (st : Store) (pk sk atk rtk : String) (ex : Int) : Store :=
  match st.getItem pk sk with
  | some it =>
    st.putItem pk sk (((it.setAttr "access_token" (.s atk)).setAttr "refresh_token" (.s rtk)).setAttr "expires_at" (.n ex))
  | none =>
    st.putItem pk sk [("pk", .s pk), ("sk", .s sk), ("access_token", .s atk), ("refresh_token", .s rtk), ("expires_at", .n ex)]

/-! ### Shared request-decoding helpers

These lines are character-for-character identical in `auth_handler.py` and
`authorizer.py`; they are embedded once and used by both handler models. -/

/-- Case-insensitive cookie-header lookup:
`next((v for k, v in headers.items() if k.lower() == "cookie"), None)`. -/
def findCookieHeader (headers : List (String × String)) : Option String :=
  (headers.find? (fun kv => pyLower kv.1 = "cookie")).map (·.2)

/-- Cookie parsing used by both handlers:
`{c.split("=")[0].strip(): c.split("=")[1].strip() for c in header.split(";") if "=" in c}`.
The kept value is element 1 of the split, i.e. the text between the first and
second `=` of the chunk. -/
def parseCookies (header : String) : List (String × String) :=
  (pySplitStr ';' header).foldl
    (fun acc c =>
      if containsChar '=' c then
        let parts := pySplitStr '=' c
        dictSet acc (pyStrip (parts.getD 0 "")) (pyStrip (parts.getD 1 ""))
      else acc)
    []

/-- Model of `decode_jwt_claims` (both files; the authorizer's leading
`if not token` guard and the callback's uncaught-`AttributeError`-on-`None`
both come out as the empty claims dict).  Splits on `.`, requires three
parts, re-pads and base64url-decodes the payload, and parses the JSON object;
any failure yields `{}`. -/
def decode_jwt_claims (token : Option String) : List (String × String) :=
  match token with
  | none => []
  | some t =>
    match pySplitStr '.' t with
    | [_, payload, _] =>
      let missing := payload.length % 4
      let padded := if missing ≠ 0 then payload ++ String.mk (List.replicate (4 - missing) '=') else payload
      match b64urlDecode padded with
      | none => []
      | some bytes =>
        match asciiDecode bytes with
        | none => []
        | some chars =>
          match jsonLoadsObj (String.mk chars) with
          | some d => d
          | none => []
    | _ => []

/-- Token attribute of an item as a string, `none` for absent or non-string
(a non-string raises inside `decode_jwt_claims`'s `try`, yielding `{}`). -/
def tokenOfAttr (o : Option AttrVal) : Option String :=
  match o with
  | some (.s s) => some s
  | _ => none

/-- Model of the authorizer's `extract_tenant_claim`: prefer `id_token`, fall
back to `access_token`; in each, the claim is `tid` or (falling back) `tenant_id`;
`none` when no truthy claim is found in either token. -/
def extract_tenant_claim (item : Item) : Option (String × List (String × String)) :=
  let tryField := fun (f : String) =>
    let claims := decode_jwt_claims (tokenOfAttr (item.get f))
    match pyOr (dictGet claims "tid") (dictGet claims "tenant_id") with
    | some tc => if tc ≠ "" then some (tc, claims) else none
    | none => none
  match tryField "id_token" with
  | some r => some r
  | none => tryField "access_token"

/-! ### Authorizer (`authorizer.py`)

The handler takes the configured app id, the store, the current time, and the
parsed token-endpoint response a refresh attempt would get (`none` = network
or non-2xx failure).  It returns the policy and the resulting store, or
`Except.error ()` where the Python raises an uncaught exception (missing
`access_token`/`expires_at` attribute, non-numeric `expires_at`). -/

/-- Authorizer request: headers plus `event["methodArn"]`. -/
structure AuthEvent where
  headers : List (String × String)
  methodArn : String
deriving DecidableEq

/-- Context map attached to an Allow policy (string values, as API Gateway
authorizer context). -/
structure PolicyContext where
  access_token : String
  session_id : String
  tenant_id : String
  app_id : String
  principal_sub : String
  principal_email : String
deriving DecidableEq

/-- IAM policy result of `generate_policy`. -/
structure Policy where
  principalId : String
  effect : String
  resource : String
  context : Option PolicyContext
deriving DecidableEq

/-- Model of `generate_policy`: the `context` key is attached only when a
(necessarily non-empty) context dict is passed. -/
def generate_policy (principal_id effect resource : String) (context : Option PolicyContext) : Policy :=
  { principalId := principal_id, effect := effect, resource := resource, context := context }

/-- The Deny policy every deny path returns: `generate_policy("user", "Deny", arn)`. -/
def denyPolicy (arn : String) : Policy := generate_policy "user" "Deny" arn none

/-- Parsed body of a token-endpoint response to a `refresh_token` grant. -/
structure RefreshResp where
  access_token : Option String
  refresh_token : Option String
  expires_in : Option Int
deriving DecidableEq

/-- Model of `refresh_session`: on a usable response, compute the new token
triple and update the stored record in place; on failure (no response, or
response without `access_token` — a `KeyError` caught by the handler's
`except`) return `(None, None)` with the store untouched. -/
def refresh_session (appId : String) (store : Store) (now : Int) (resp : Option RefreshResp)
    (tenant_id session_id refresh_token : String) : (Option String × Option Int) × Store :=
  match resp with
  | none => ((none, none), store)
  | some r =>
    match r.access_token with
    | none => ((none, none), store)
    | some new_access_token =>
      let new_refresh_token := r.refresh_token.getD refresh_token
      let expires_in := r.expires_in.getD 3600
      let new_expires_at := now + expires_in
      let store' := store.updateSessionTokens ("APP#" ++ appId ++ "#TENANT#" ++ tenant_id)
        ("SESSION#" ++ session_id) new_access_token new_refresh_token new_expires_at
      ((some new_access_token, some new_expires_at), store')

/-- Context built at the single Allow site of `lambda_handler`. -/
def allowContext (access_token session_id tenant_id appId : String)
    (claims : List (String × String)) : PolicyContext :=
  { access_token := access_token
    session_id := session_id
    tenant_id := tenant_id
    app_id := appId
    principal_sub := (pyOr (dictGet claims "sub") (dictGet claims "oid")).getD ""
    principal_email := (pyOr (dictGet claims "email") (dictGet claims "upn")).getD "" }

/-- Expiry check and refresh tail of the authorizer (source lines 178-208):
refresh when inside the 300-second window with a truthy refresh token; the
outcome test is `if new_token:`, i.e. Python TRUTHINESS of the returned token
(`None` and `""` both take the failure path); deny when expired without a
truthy refreshed token, otherwise allow.  Note that a non-truthy refresh
outcome still keeps whatever store `refresh_session` produced: an exchange
that returned `access_token = ""` has already updated the record. -/
def expiryRefreshStep (appId : String) (store : Store) (now : Int)
    (refreshResp : Option RefreshResp) (arn tenant_id session_id : String)
    (claims : List (String × String)) (atAttr : AttrVal) (expires_at : Int)
    (refresh_token : Option AttrVal) : Except Unit (Policy × Store) :=
  if expires_at < now + 300 ∧ attrTruthyO refresh_token then
    match refresh_session appId store now refreshResp tenant_id session_id (attrStrD refresh_token "") with
    | ((new_token, _), store') =>
      if truthyO new_token then
        .ok (generate_policy session_id "Allow" arn
          (some (allowContext (new_token.getD "") session_id tenant_id appId claims)), store')
      else if expires_at < now then .ok (denyPolicy arn, store')
      else
        .ok (generate_policy session_id "Allow" arn
          (some (allowContext (attrStr atAttr) session_id tenant_id appId claims)), store')
  else if expires_at < now then .ok (denyPolicy arn, store)
  else
    .ok (generate_policy session_id "Allow" arn
      (some (allowContext (attrStr atAttr) session_id tenant_id appId claims)), store)

/-- Model of the authorizer's `lambda_handler`. -/
def authorizer_handler (appId : String) (store : Store) (now : Int)
    (refreshResp : Option RefreshResp) (event : AuthEvent) : Except Unit (Policy × Store) :=
  match findCookieHeader event.headers with
  | none => .ok (denyPolicy event.methodArn, store)
  | some cookie_header =>
    let cookies := parseCookies cookie_header
    match dictGet cookies "session_id" with
    | none => .ok (denyPolicy event.methodArn, store)
    | some raw_session =>
      if raw_session = "" then .ok (denyPolicy event.methodArn, store)
      else if ¬ containsChar ':' raw_session then .ok (denyPolicy event.methodArn, store)
      else
        let tenant_id := (pySplit1 ':' raw_session).1
        let session_id := (pySplit1 ':' raw_session).2
        match store.getItem ("APP#" ++ appId ++ "#TENANT#" ++ tenant_id) ("SESSION#" ++ session_id) with
        | none => .ok (denyPolicy event.methodArn, store)
        | some item =>
          let stored_tenant_id := attrStrD (item.get "tenant_id") ""
          let stored_app_id := attrStrD (item.get "app_id") ""
          let stored_session_id := attrStrD (item.get "session_id") session_id
          if stored_tenant_id ≠ "" ∧ stored_tenant_id ≠ tenant_id then
            .ok (denyPolicy event.methodArn, store)
          else if stored_app_id ≠ "" ∧ stored_app_id ≠ appId then
            .ok (denyPolicy event.methodArn, store)
          else if stored_session_id ≠ "" ∧ stored_session_id ≠ session_id then
            .ok (denyPolicy event.methodArn, store)
          else
            match extract_tenant_claim item with
            | none => .ok (denyPolicy event.methodArn, store)
            | some (claim_tenant_id, claims) =>
              if claim_tenant_id ≠ tenant_id then .ok (denyPolicy event.methodArn, store)
              else
                match item.get "access_token" with
                | none => .error ()
                | some atAttr =>
                  match item.get "expires_at" with
                  | none => .error ()
                  | some (.s _) => .error ()
                  | some .null => .error ()
                  | some (.n expires_at) =>
                    expiryRefreshStep appId store now refreshResp event.methodArn
                      tenant_id session_id claims atAttr expires_at (item.get "refresh_token")

/-! ### Login/callback handler (`auth_handler.py`)

Onboarding and the callback are embedded with the same store model.  The
authorization-code exchange is a parameter carrying the parsed token response
(`none` = network or non-2xx failure), and the freshly generated
`session_id` UUID is a parameter. -/

/-- Model of `generate_pkce_pair`; the randomness of `secrets.token_urlsafe(32)`
is the explicit 32-byte input.  `token_urlsafe` is
`base64.urlsafe_b64encode(os.urandom(32)).rstrip(b"=")`; since the encoder puts
`=` only at the end, the rstrip (and the challenge's `.replace("=", "")`) are
both `filter (· ≠ '=')`. -/
def generate_pkce_pair (randomBytes : List Nat) : String × String :=
  let verifier := String.mk ((b64urlEncode randomBytes).filter (· ≠ '='))
  let challenge := String.mk ((b64urlEncode (sha256 (asciiBytes verifier))).filter (· ≠ '='))
  (verifier, challenge)

/-- Model of `tenant_pk`. -/
def tenant_pk (appId tenant_id : String) : String :=
  "APP#" ++ appId ++ "#TENANT#" ++ tenant_id

/-- The JIT onboarding version constant. -/
def JIT_ONBOARDING_VERSION : String := "jit-v1"

/-- The baseline policy attachments: (policy_id, policy_type, scope). -/
def BASELINE_POLICY_ATTACHMENTS : List (String × String × String) :=
  [("tenant-isolation", "cedar", "tenant"), ("session-partition-boundary", "session", "tenant")]

/-- Tenant metadata item written by onboarding. -/
def metaItem (appId tenant_id : String) (now : Int) : Item :=
  [("pk", .s (tenant_pk appId tenant_id)),
   ("sk", .s "TENANT#META"),
   ("type", .s "tenant"),
   ("app_id", .s appId),
   ("tenant_id", .s tenant_id),
   ("onboarding_state", .s "READY"),
   ("onboarding_version", .s JIT_ONBOARDING_VERSION),
   ("tenant_root_prefix", .s (appId ++ "/" ++ tenant_id ++ "/")),
   ("session_partition_pk", .s (tenant_pk appId tenant_id)),
   ("created_at", .n now),
   ("updated_at", .n now)]

/-- Invariant fields of the tenant metadata record. -/
def metaInvariantFields : List String :=
  ["type", "app_id", "tenant_id", "onboarding_state", "onboarding_version",
   "tenant_root_prefix", "session_partition_pk"]

/-- Policy attachment item written by onboarding. -/
def policyItem (appId tenant_id policy_id policy_type scope : String) (now : Int) : Item :=
  [("pk", .s (tenant_pk appId tenant_id)),
   ("sk", .s ("POLICY#BASELINE#" ++ policy_id)),
   ("type", .s "tenant_policy_attachment"),
   ("app_id", .s appId),
   ("tenant_id", .s tenant_id),
   ("attachment_state", .s "ATTACHED"),
   ("policy_id", .s policy_id),
   ("policy_type", .s policy_type),
   ("scope", .s scope),
   ("attachment_source", .s "jit-onboarding"),
   ("attachment_version", .s JIT_ONBOARDING_VERSION),
   ("created_at", .n now),
   ("updated_at", .n now)]

/-- Invariant fields of a policy attachment record. -/
def policyInvariantFields : List String :=
  ["type", "app_id", "tenant_id", "attachment_state", "policy_id", "policy_type",
   "scope", "attachment_source", "attachment_version"]

/-- Model of `put_item_if_absent`: the conditional put succeeds exactly when the
key is absent; on a conditional failure the item is re-read (in this sequential
model it is the item that made the condition fail) and every invariant field is
compared, the first mismatch raising. -/
def put_item_if_absent (store : Store) (item : Item) (invariant_fields : List String) :
    Except String (String × Store) :=
  let pk := attrStrD (item.get "pk") ""
  let sk := attrStrD (item.get "sk") ""
  match store.getItem pk sk with
  | none => .ok ("created", store.putItem pk sk item)
  | some existing =>
    match invariant_fields.find? (fun f => ¬ existing.get f = item.get f) with
    | some f => .error ("JIT onboarding invariant mismatch for field " ++ f)
    | none => .ok ("existing", store)

/-- Run `put_item_if_absent` over the onboarding records in order.  The error
carries the store at the moment of the raise: earlier conditional writes of
the same run have already persisted in the table (DynamoDB writes are
durable; a later `RuntimeError` does not roll them back). -/
def onboardRecords : List (Item × List String) → Store → Except (String × Store) Store
  | [], s => .ok s
  | (it, fs) :: rest, s =>
    match put_item_if_absent s it fs with
    | .error e => .error (e, s)
    | .ok (_, s') => onboardRecords rest s'

/-- Model of `ensure_tenant_onboarding`; an error carries the table as left
by the writes that succeeded before the raise. -/
def ensure_tenant_onboarding (appId tenant_id : String) (now : Int) (store : Store) :
    Except (String × Store) Store :=
  onboardRecords
    ((metaItem appId tenant_id now, metaInvariantFields) ::
      BASELINE_POLICY_ATTACHMENTS.map (fun a =>
        (policyItem appId tenant_id a.1 a.2.1 a.2.2 now, policyInvariantFields)))
    store

/-- HTTP-shaped response of the login/callback handler. -/
structure HttpResp where
  statusCode : Int
  body : String
  location : Option String
  setCookies : List String
deriving DecidableEq

/-- Error response with a body and no headers. -/
def errResp (status : Int) (msg : String) : HttpResp :=
  { statusCode := status, body := msg, location := none, setCookies := [] }

/-- Parsed body of the `authorization_code` token-endpoint response. -/
structure CbTokenResp where
  access_token : Option String
  id_token : Option String
  refresh_token : Option String
  expires_in : Option Int
deriving DecidableEq

/-- Callback request: query string parameters and headers. -/
structure CbEvent where
  queryStringParameters : List (String × String)
  headers : List (String × String)
deriving DecidableEq

/-- Optional string attribute for the session item (Python `None` → DynamoDB null). -/
def optAttr (o : Option String) : AttrVal :=
  match o with
  | some s => .s s
  | none => .null

/-- Permanent session item written by the callback. -/
def sessionItem (appId tenant_id session_id access_token : String)
    (id_token refresh_token : Option String) (expires_at : Int) : Item :=
  [("pk", .s (tenant_pk appId tenant_id)),
   ("sk", .s ("SESSION#" ++ session_id)),
   ("tenant_id", .s tenant_id),
   ("app_id", .s appId),
   ("session_id", .s session_id),
   ("access_token", .s access_token),
   ("id_token", optAttr id_token),
   ("refresh_token", optAttr refresh_token),
   ("expires_at", .n expires_at),
   ("type", .s "session")]

/-- Session cookie issued on success. -/
def sessionCookie (tenant_id session_id : String) (expires_in : Int) : String :=
  "session_id=" ++ tenant_id ++ ":" ++ session_id ++
    "; Secure; HttpOnly; SameSite=Strict; Path=/; Max-Age=" ++ toString expires_in

/-- The expired temp cookie issued alongside. -/
def expireTempCookie : String :=
  "temp_session_id=; Secure; HttpOnly; SameSite=Strict; Path=/; Max-Age=0"

/-- Temp-session cookie extraction in the callback: the cookie header, parsed,
at key `temp_session_id`. -/
def tempCookie (event : CbEvent) : Option String :=
  match findCookieHeader event.headers with
  | some ch => dictGet (parseCookies ch) "temp_session_id"
  | none => none

/-- Model of the `callback` handler.  `exchange` is the parsed token-endpoint
response (`none` = exchange failure); `new_session_id` is the generated UUID.
`Except.error ()` marks the uncaught `KeyError` when a successful exchange
response carries no `access_token`. -/
def callback (appId : String) (store : Store) (now : Int) (exchange : Option CbTokenResp)
    (new_session_id : String) (event : CbEvent) : Except Unit (HttpResp × Store) :=
  let code := dictGet event.queryStringParameters "code"
  let state := dictGet event.queryStringParameters "state"
  if ¬ truthyO code ∨ ¬ truthyO state then
    .ok (errResp 400 "Missing code or state", store)
  else
    let temp_session_id := tempCookie event
    if ¬ truthyO temp_session_id then
      .ok (errResp 400 "Missing temporary session cookie", store)
    else
      let tsid := temp_session_id.getD ""
      match store.getItem ("APP#" ++ appId ++ "#TEMP") ("SESSION#" ++ tsid) with
      | none => .ok (errResp 400 "Session expired or invalid", store)
      | some temp_item =>
        if ¬ temp_item.get "state" = some (.s (state.getD "")) then
          .ok (errResp 400 "Invalid state", store)
        else
          match exchange with
          | none => .ok (errResp 500 "Token exchange failed", store)
          | some token_resp =>
            let store1 := store.deleteItem ("APP#" ++ appId ++ "#TEMP") ("SESSION#" ++ tsid)
            let expires_in := token_resp.expires_in.getD 3600
            let expires_at := now + expires_in
            let claims :=
              if truthyO token_resp.id_token then decode_jwt_claims token_resp.id_token else []
            let tenant_id := (dictGet claims "tid").getD "unknown"
            match ensure_tenant_onboarding appId tenant_id now store1 with
            | .error (_, storeErr) => .ok (errResp 500 "Tenant onboarding failed", storeErr)
            | .ok store2 =>
              match token_resp.access_token with
              | none => .error ()
              | some access_token =>
                let store3 := store2.putItem (tenant_pk appId tenant_id)
                  ("SESSION#" ++ new_session_id)
                  (sessionItem appId tenant_id new_session_id access_token
                    token_resp.id_token token_resp.refresh_token expires_at)
                .ok ({ statusCode := 302, body := "", location := some "/",
                       setCookies := [sessionCookie tenant_id new_session_id expires_in,
                                      expireTempCookie] }, store3)

/-! ### Concrete fixtures

Shared concrete inputs used by witness and counterexample theorems.  The JWT
fixtures carry base64url payloads: `jwtT1` decodes to a claims object with
`tid = "t1"`, `jwtTenant9` to one with `tenant_id = "t9"` and no `tid`. -/

/-- JWT whose payload decodes to the claims object with `tid` equal to `t1`. -/
def jwtT1 : String := "h.eyJ0aWQiOiJ0MSJ9.s"

/-- JWT whose payload decodes to a claims object with `tenant_id` equal to `t9`
and no `tid` claim. -/
def jwtTenant9 : String := "h.eyJ0ZW5hbnRfaWQiOiJ0OSJ9.s"

/-- Temporary auth session record for temp session id `ts1` with state `st1`. -/
def tempItem1 : Item :=
  [("pk", .s "APP#app1#TEMP"), ("sk", .s "SESSION#ts1"), ("state", .s "st1"),
   ("nonce", .s "n1"), ("code_verifier", .s "cv1"), ("expires_at", .n 600),
   ("type", .s "temp"), ("app_id", .s "app1")]

/-- Store holding only the temporary auth session. -/
def tempStore : Store := [(("APP#app1#TEMP", "SESSION#ts1"), tempItem1)]

/-- Callback event with matching code/state and temp cookie. -/
def cbEvGood : CbEvent :=
  { queryStringParameters := [("code", "abc"), ("state", "st1")],
    headers := [("Cookie", "temp_session_id=ts1")] }

/-- Token exchange response whose id_token names tenant `t1`. -/
def trGood : CbTokenResp :=
  { access_token := some "at1", id_token := some jwtT1,
    refresh_token := some "rt1", expires_in := some 3600 }

/-- Token exchange response whose id_token has a `tenant_id` claim but no `tid`. -/
def trNoTid : CbTokenResp :=
  { access_token := some "at1", id_token := some jwtTenant9,
    refresh_token := none, expires_in := some 3600 }

/-- Tenant metadata record for `t1` whose `onboarding_state` invariant field
conflicts with what onboarding would write. -/
def badMeta : Item := (metaItem "app1" "t1" 50).setAttr "onboarding_state" (.s "BROKEN")

/-- Store with the temp session and a conflicting metadata record for `t1`. -/
def storeBadMeta : Store :=
  [(("APP#app1#TEMP", "SESSION#ts1"), tempItem1),
   (("APP#app1#TENANT#t1", "TENANT#META"), badMeta)]

/-- Authorizer event presenting the session cookie `t1:s1`. -/
def evT1S1 : AuthEvent := { headers := [("Cookie", "session_id=t1:s1")], methodArn := "arn1" }

/-- Well-formed permanent session record for tenant `t1`, session `s1`. -/
def itemGood : Item :=
  [("pk", .s "APP#app1#TENANT#t1"), ("sk", .s "SESSION#s1"), ("tenant_id", .s "t1"),
   ("app_id", .s "app1"), ("session_id", .s "s1"), ("access_token", .s "at1"),
   ("id_token", .s jwtT1), ("refresh_token", .null), ("expires_at", .n 10000)]

/-- Store holding the well-formed permanent session. -/
def storeGood : Store := [(("APP#app1#TENANT#t1", "SESSION#s1"), itemGood)]

/-- JWT whose payload decodes to a claims object with a `sub` claim only
(no tenant claim of any kind). -/
def jwtSubOnly : String := "h.eyJzdWIiOiJ1MSJ9.s"

/-- Token exchange response whose id_token carries no tenant claim at all. -/
def trNoClaims : CbTokenResp :=
  { access_token := some "at1", id_token := some jwtSubOnly,
    refresh_token := none, expires_in := some 3600 }

/-- Permanent session record that is valid except that its stored `app_id`
field is the empty string (which differs from the configured app id). -/
def itemEmptyApp : Item :=
  [("tenant_id", .s "t1"), ("app_id", .s ""), ("session_id", .s "s1"),
   ("access_token", .s "at1"), ("id_token", .s jwtT1), ("expires_at", .n 10000)]

/-- Store holding only `itemEmptyApp` under the `t1`/`s1` composite key. -/
def storeEmptyApp : Store := [(("APP#app1#TENANT#t1", "SESSION#s1"), itemEmptyApp)]

/-- Authorizer event whose session cookie value contains two colons. -/
def evTwoColon : AuthEvent := { headers := [("Cookie", "session_id=t1:s1:x")], methodArn := "arn1" }

/-- Permanent session record stored under session id `s1:x` (the part of the
two-colon cookie value after the first colon). -/
def itemTwoColon : Item :=
  [("tenant_id", .s "t1"), ("app_id", .s "app1"), ("session_id", .s "s1:x"),
   ("access_token", .s "at1"), ("id_token", .s jwtT1), ("expires_at", .n 10000)]

/-- Store holding only `itemTwoColon`. -/
def storeTwoColon : Store := [(("APP#app1#TENANT#t1", "SESSION#s1:x"), itemTwoColon)]

/-- Permanent session record close to expiry, with a refresh token. -/
def itemNearExpiry : Item :=
  [("tenant_id", .s "t1"), ("app_id", .s "app1"), ("session_id", .s "s1"),
   ("access_token", .s "at1"), ("id_token", .s jwtT1), ("refresh_token", .s "rt1"),
   ("expires_at", .n 100)]

/-- Store holding only `itemNearExpiry`. -/
def storeNearExpiry : Store := [(("APP#app1#TENANT#t1", "SESSION#s1"), itemNearExpiry)]

/-- Permanent session record whose stored `tenant_id` field is non-empty and
differs from the cookie-derived tenant id. -/
def itemWrongTenant : Item :=
  [("tenant_id", .s "zz"), ("app_id", .s "app1"), ("session_id", .s "s1"),
   ("access_token", .s "at1"), ("id_token", .s jwtT1), ("expires_at", .n 10000)]

/-- Store holding only `itemWrongTenant` under the `t1`/`s1` composite key. -/
def storeWrongTenant : Store := [(("APP#app1#TENANT#t1", "SESSION#s1"), itemWrongTenant)]

/-- Authorizer event whose session cookie value has no colon at all. -/
def evNoColon : AuthEvent := { headers := [("Cookie", "session_id=nocolon")], methodArn := "arn1" }

/-- JWT whose payload decodes to a claims object with `tid` equal to `a`. -/
def jwtTidA : String := "h.eyJ0aWQiOiJhIn0.s"

/-- Permanent session record for tenant `a`, session `b`. -/
def itemTidA : Item :=
  [("tenant_id", .s "a"), ("app_id", .s "app1"), ("session_id", .s "b"),
   ("access_token", .s "at1"), ("id_token", .s jwtTidA), ("expires_at", .n 10000)]

/-- Store holding only `itemTidA` under the `a`/`b` composite key. -/
def storeTidA : Store := [(("APP#app1#TENANT#a", "SESSION#b"), itemTidA)]

/-- Authorizer event whose session cookie value is `a:b=c` (contains an `=`). -/
def evValueWithEq : AuthEvent :=
  { headers := [("Cookie", "session_id=a:b=c")], methodArn := "arn1" }

/-- Successful refresh response fixture. -/
def rrGood : RefreshResp :=
  { access_token := some "at2", refresh_token := some "rt2", expires_in := some 7200 }

/-- The store state produced by a successful onboarding of tenant `t` run
against an empty store at time `now`. -/
def onboardedStore (appId t : String) (now : Int) : Store :=
  [((tenant_pk appId t, "TENANT#META"), metaItem appId t now),
   ((tenant_pk appId t, "POLICY#BASELINE#tenant-isolation"),
     policyItem appId t "tenant-isolation" "cedar" "tenant" now),
   ((tenant_pk appId t, "POLICY#BASELINE#session-partition-boundary"),
     policyItem appId t "session-partition-boundary" "session" "tenant" now)]

/-! ### General store lemmas -/

/-- Lookup after `put_item`: the written key reads back the item, other keys
are unchanged. -/
theorem getItem_putItem (st : Store) (pk sk pk' sk' : String) (it : Item) :
    (st.putItem pk sk it).getItem pk' sk' =
      if (pk', sk') = (pk, sk) then some it else st.getItem pk' sk' := by
  induction st with
  | nil =>
    by_cases hq : ((pk', sk') : String × String) = (pk, sk)
    · simp [Store.putItem, Store.getItem, hq]
    · have hq2 : ¬((pk, sk) : String × String) = (pk', sk') := fun h => hq h.symm
      simp [Store.putItem, Store.getItem, hq, hq2]
  | cons e rest ih =>
    by_cases he : e.1 = (pk, sk)
    · by_cases hq : ((pk', sk') : String × String) = (pk, sk)
      · simp [Store.putItem, Store.getItem, he, hq]
      · have hq2 : ¬((pk, sk) : String × String) = (pk', sk') := fun h => hq h.symm
        have hf : ¬ e.1 = (pk', sk') := by rw [he]; exact hq2
        simp [Store.putItem, Store.getItem, he, hq, hq2, hf]
    · by_cases hf : e.1 = (pk', sk')
      · have hq : ¬((pk', sk') : String × String) = (pk, sk) := fun h => he (hf.trans h)
        simp [Store.putItem, Store.getItem, he, hf, hq]
      · simp [Store.putItem, Store.getItem, he, hf, ih]

/-- Lookup after `delete_item`: the deleted key reads back nothing, other keys
are unchanged. -/
theorem getItem_deleteItem (st : Store) (pk sk pk' sk' : String) :
    (st.deleteItem pk sk).getItem pk' sk' =
      if (pk', sk') = (pk, sk) then none else st.getItem pk' sk' := by
  induction st with
  | nil => simp [Store.deleteItem, Store.getItem]
  | cons e rest ih =>
    by_cases he : e.1 = (pk, sk)
    · by_cases hq : ((pk', sk') : String × String) = (pk, sk)
      · simp [Store.deleteItem, Store.getItem, he, hq, ih]
      · have hq2 : ¬((pk, sk) : String × String) = (pk', sk') := fun h => hq h.symm
        have hf : ¬ e.1 = (pk', sk') := by rw [he]; exact hq2
        simp [Store.deleteItem, Store.getItem, he, hq, hq2, hf, ih]
    · by_cases hf : e.1 = (pk', sk')
      · by_cases hq : ((pk', sk') : String × String) = (pk, sk)
        · exact absurd (hf.trans hq) he
        · simp [Store.deleteItem, Store.getItem, he, hf, hq]
      · simp [Store.deleteItem, Store.getItem, he, hf, ih]

/-! ### Onboarding lemmas -/

/-- Unfolding equation for `onboardRecords`. -/
theorem onboardRecords_cons (it : Item) (fs : List String) (rest : List (Item × List String)) (s : Store) :
    onboardRecords ((it, fs) :: rest) s =
      match put_item_if_absent s it fs with
      | .error e => .error (e, s)
      | .ok (_, s') => onboardRecords rest s' := by
  rfl

/-- A successful `put_item_if_absent` leaves every other key unchanged. -/
theorem putAbsent_preserves (s : Store) (item : Item) (fs : List String) (r : String) (s' : Store)
    (pk' sk' : String)
    (h : put_item_if_absent s item fs = .ok (r, s'))
    (hne : ¬ (pk', sk') = (attrStrD (item.get "pk") "", attrStrD (item.get "sk") "")) :
    s'.getItem pk' sk' = s.getItem pk' sk' := by
  simp only [put_item_if_absent] at h
  cases hget : s.getItem (attrStrD (item.get "pk") "") (attrStrD (item.get "sk") "") with
  | none =>
    simp only [hget, Except.ok.injEq, Prod.mk.injEq] at h
    rw [← h.2, getItem_putItem, if_neg hne]
  | some existing =>
    simp only [hget] at h
    cases hfind : fs.find? (fun f => ¬ existing.get f = item.get f) with
    | none =>
      simp only [hfind, Except.ok.injEq, Prod.mk.injEq] at h
      rw [← h.2]
    | some f => rw [hfind] at h; exact Except.noConfusion h

/-- After a successful `put_item_if_absent`, the item's key holds a record whose
invariant fields all equal the intended item's. -/
theorem putAbsent_ok_fields (s : Store) (item : Item) (fs : List String) (r : String) (s' : Store)
    (h : put_item_if_absent s item fs = .ok (r, s')) :
    ∃ it, s'.getItem (attrStrD (item.get "pk") "") (attrStrD (item.get "sk") "") = some it ∧
      ∀ f ∈ fs, it.get f = item.get f := by
  simp only [put_item_if_absent] at h
  cases hget : s.getItem (attrStrD (item.get "pk") "") (attrStrD (item.get "sk") "") with
  | none =>
    simp only [hget, Except.ok.injEq, Prod.mk.injEq] at h
    refine ⟨item, ?_, fun f _ => rfl⟩
    rw [← h.2, getItem_putItem, if_pos rfl]
  | some existing =>
    simp only [hget] at h
    cases hfind : fs.find? (fun f => ¬ existing.get f = item.get f) with
    | none =>
      simp only [hfind, Except.ok.injEq, Prod.mk.injEq] at h
      refine ⟨existing, ?_, ?_⟩
      · rw [← h.2]; exact hget
      · intro f hf
        have := List.find?_eq_none.mp hfind f hf
        simpa using this
    | some f => rw [hfind] at h; exact Except.noConfusion h

/-- When the record exists and every invariant field matches, the conditional
write reports `existing` and leaves the store untouched. -/
theorem putAbsent_existing (s : Store) (item : Item) (fs : List String) (it : Item)
    (hget : s.getItem (attrStrD (item.get "pk") "") (attrStrD (item.get "sk") "") = some it)
    (hmatch : ∀ f ∈ fs, it.get f = item.get f) :
    put_item_if_absent s item fs = .ok ("existing", s) := by
  simp only [put_item_if_absent, hget]
  have hfind : fs.find? (fun f => ¬ it.get f = item.get f) = none := by
    rw [List.find?_eq_none]
    intro f hf
    simpa using hmatch f hf
  rw [hfind]

/-- When the record exists and some invariant field differs, the conditional
write raises. -/
theorem putAbsent_mismatch (s : Store) (item : Item) (fs : List String) (it : Item) (f : String)
    (hget : s.getItem (attrStrD (item.get "pk") "") (attrStrD (item.get "sk") "") = some it)
    (hf : f ∈ fs) (hne : ¬ it.get f = item.get f) :
    ∃ e, put_item_if_absent s item fs = .error e := by
  simp only [put_item_if_absent, hget]
  cases hfind : fs.find? (fun g => ¬ it.get g = item.get g) with
  | none =>
    exact absurd (by simpa using List.find?_eq_none.mp hfind f hf) hne
  | some g =>
    exact ⟨"JIT onboarding invariant mismatch for field " ++ g, rfl⟩

/-- Invariant fields of the metadata record do not depend on the timestamp. -/
theorem metaItem_fields_agree (a t : String) (n1 n2 : Int) :
    ∀ f ∈ metaInvariantFields, (metaItem a t n2).get f = (metaItem a t n1).get f := by
  intro f hf
  fin_cases hf <;> rfl

/-- Invariant fields of a policy record do not depend on the timestamp. -/
theorem policyItem_fields_agree (a t pid pty psc : String) (n1 n2 : Int) :
    ∀ f ∈ policyInvariantFields, (policyItem a t pid pty psc n2).get f = (policyItem a t pid pty psc n1).get f := by
  intro f hf
  fin_cases hf <;> rfl

/-- Re-running onboarding over a store produced by a successful onboarding run
reports every record as existing and changes nothing, for any later timestamp. -/
theorem ensure_onboarding_idempotent_aux (a t : String) (n1 n2 : Int) (s s1 : Store)
    (h : ensure_tenant_onboarding a t n1 s = .ok s1) :
    ensure_tenant_onboarding a t n2 s1 = .ok s1 := by
  simp only [ensure_tenant_onboarding, BASELINE_POLICY_ATTACHMENTS, List.map_cons, List.map_nil] at h ⊢
  rw [onboardRecords_cons] at h
  cases h1 : put_item_if_absent s (metaItem a t n1) metaInvariantFields with
  | error e => simp only [h1] at h; exact Except.noConfusion h
  | ok p1 =>
    obtain ⟨r1, sA⟩ := p1
    simp only [h1] at h
    rw [onboardRecords_cons] at h
    cases h2 : put_item_if_absent sA (policyItem a t "tenant-isolation" "cedar" "tenant" n1) policyInvariantFields with
    | error e => simp only [h2] at h; exact Except.noConfusion h
    | ok p2 =>
      obtain ⟨r2, sB⟩ := p2
      simp only [h2] at h
      rw [onboardRecords_cons] at h
      cases h3 : put_item_if_absent sB (policyItem a t "session-partition-boundary" "session" "tenant" n1) policyInvariantFields with
      | error e => simp only [h3] at h; exact Except.noConfusion h
      | ok p3 =>
        obtain ⟨r3, sC⟩ := p3
        simp only [h3] at h
        simp only [onboardRecords, Except.ok.injEq] at h
        subst h
        have kne21 : ¬ ((tenant_pk a t, "TENANT#META") : String × String) =
            (tenant_pk a t, "POLICY#BASELINE#tenant-isolation") := by
          intro hh
          have h2x : ("TENANT#META" : String) = "POLICY#BASELINE#tenant-isolation" :=
            congrArg Prod.snd hh
          exact absurd h2x (by decide)
        have kne31 : ¬ ((tenant_pk a t, "TENANT#META") : String × String) =
            (tenant_pk a t, "POLICY#BASELINE#session-partition-boundary") := by
          intro hh
          have h2x : ("TENANT#META" : String) = "POLICY#BASELINE#session-partition-boundary" :=
            congrArg Prod.snd hh
          exact absurd h2x (by decide)
        have kne32 : ¬ ((tenant_pk a t, "POLICY#BASELINE#tenant-isolation") : String × String) =
            (tenant_pk a t, "POLICY#BASELINE#session-partition-boundary") := by
          intro hh
          have h2x : ("POLICY#BASELINE#tenant-isolation" : String) = "POLICY#BASELINE#session-partition-boundary" :=
            congrArg Prod.snd hh
          exact absurd h2x (by decide)
        obtain ⟨itM, hgetM, hfM⟩ := putAbsent_ok_fields s (metaItem a t n1) metaInvariantFields r1 sA h1
        have hMB : sB.getItem (tenant_pk a t) "TENANT#META" = some itM := by
          rw [putAbsent_preserves sA _ _ r2 sB _ _ h2 kne21]; exact hgetM
        have hM1 : sC.getItem (tenant_pk a t) "TENANT#META" = some itM := by
          rw [putAbsent_preserves sB _ _ r3 sC _ _ h3 kne31]; exact hMB
        obtain ⟨itP1, hgetP1, hfP1⟩ := putAbsent_ok_fields sA
          (policyItem a t "tenant-isolation" "cedar" "tenant" n1) policyInvariantFields r2 sB h2
        have hP11 : sC.getItem (tenant_pk a t) "POLICY#BASELINE#tenant-isolation" = some itP1 := by
          rw [putAbsent_preserves sB _ _ r3 sC _ _ h3 kne32]; exact hgetP1
        obtain ⟨itP2, hgetP2, hfP2⟩ := putAbsent_ok_fields sB
          (policyItem a t "session-partition-boundary" "session" "tenant" n1) policyInvariantFields r3 sC h3
        have e1 := putAbsent_existing sC (metaItem a t n2) metaInvariantFields itM hM1
          (fun f hf => (hfM f hf).trans (metaItem_fields_agree a t n2 n1 f hf))
        have e2 := putAbsent_existing sC (policyItem a t "tenant-isolation" "cedar" "tenant" n2)
          policyInvariantFields itP1 hP11
          (fun f hf => (hfP1 f hf).trans (policyItem_fields_agree a t "tenant-isolation" "cedar" "tenant" n2 n1 f hf))
        have e3 := putAbsent_existing sC (policyItem a t "session-partition-boundary" "session" "tenant" n2)
          policyInvariantFields itP2 hgetP2
          (fun f hf => (hfP2 f hf).trans (policyItem_fields_agree a t "session-partition-boundary" "session" "tenant" n2 n1 f hf))
        simp only [onboardRecords_cons, e1, e2, e3]
        rfl

/-- An existing metadata record with a mismatching invariant field makes
onboarding raise. -/
theorem ensure_meta_mismatch_aux (appId t : String) (n : Int) (s : Store) (it : Item) (f : String)
    (hget : s.getItem (tenant_pk appId t) "TENANT#META" = some it)
    (hf : f ∈ metaInvariantFields)
    (hne : ¬ it.get f = (metaItem appId t n).get f) :
    ∃ e, ensure_tenant_onboarding appId t n s = .error e := by
  obtain ⟨e, he⟩ := putAbsent_mismatch s (metaItem appId t n) metaInvariantFields it f hget hf hne
  refine ⟨(e, s), ?_⟩
  simp only [ensure_tenant_onboarding, BASELINE_POLICY_ATTACHMENTS, List.map_cons, List.map_nil]
  simp only [onboardRecords_cons, he]

/-- An existing `tenant-isolation` policy record with a mismatching invariant
field makes onboarding raise. -/
theorem ensure_policy1_mismatch_aux (appId t : String) (n : Int) (s : Store) (it : Item) (f : String)
    (hget : s.getItem (tenant_pk appId t) "POLICY#BASELINE#tenant-isolation" = some it)
    (hf : f ∈ policyInvariantFields)
    (hne : ¬ it.get f = (policyItem appId t "tenant-isolation" "cedar" "tenant" n).get f) :
    ∃ e, ensure_tenant_onboarding appId t n s = .error e := by
  simp only [ensure_tenant_onboarding, BASELINE_POLICY_ATTACHMENTS, List.map_cons, List.map_nil]
  cases h1 : put_item_if_absent s (metaItem appId t n) metaInvariantFields with
  | error e => exact ⟨(e, s), by simp only [onboardRecords_cons, h1]⟩
  | ok p =>
    obtain ⟨r1, sA⟩ := p
    have kne : ¬ ((tenant_pk appId t, "POLICY#BASELINE#tenant-isolation") : String × String) =
        (tenant_pk appId t, "TENANT#META") := by
      intro hh
      have h2 : ("POLICY#BASELINE#tenant-isolation" : String) = "TENANT#META" := congrArg Prod.snd hh
      exact absurd h2 (by decide)
    have hkeep : sA.getItem (tenant_pk appId t) "POLICY#BASELINE#tenant-isolation" = some it := by
      rw [putAbsent_preserves s _ _ r1 sA _ _ h1 kne]; exact hget
    obtain ⟨e, he⟩ := putAbsent_mismatch sA
      (policyItem appId t "tenant-isolation" "cedar" "tenant" n) policyInvariantFields it f hkeep hf hne
    exact ⟨(e, sA), by simp only [onboardRecords_cons, h1, he]⟩

/-- An existing `session-partition-boundary` policy record with a mismatching
invariant field makes onboarding raise. -/
theorem ensure_policy2_mismatch_aux (appId t : String) (n : Int) (s : Store) (it : Item) (f : String)
    (hget : s.getItem (tenant_pk appId t) "POLICY#BASELINE#session-partition-boundary" = some it)
    (hf : f ∈ policyInvariantFields)
    (hne : ¬ it.get f = (policyItem appId t "session-partition-boundary" "session" "tenant" n).get f) :
    ∃ e, ensure_tenant_onboarding appId t n s = .error e := by
  simp only [ensure_tenant_onboarding, BASELINE_POLICY_ATTACHMENTS, List.map_cons, List.map_nil]
  cases h1 : put_item_if_absent s (metaItem appId t n) metaInvariantFields with
  | error e => exact ⟨(e, s), by simp only [onboardRecords_cons, h1]⟩
  | ok p =>
    obtain ⟨r1, sA⟩ := p
    have kne1 : ¬ ((tenant_pk appId t, "POLICY#BASELINE#session-partition-boundary") : String × String) =
        (tenant_pk appId t, "TENANT#META") := by
      intro hh
      have h2 : ("POLICY#BASELINE#session-partition-boundary" : String) = "TENANT#META" := congrArg Prod.snd hh
      exact absurd h2 (by decide)
    have hkeepA : sA.getItem (tenant_pk appId t) "POLICY#BASELINE#session-partition-boundary" = some it := by
      rw [putAbsent_preserves s _ _ r1 sA _ _ h1 kne1]; exact hget
    cases h2 : put_item_if_absent sA (policyItem appId t "tenant-isolation" "cedar" "tenant" n) policyInvariantFields with
    | error e => exact ⟨(e, sA), by simp only [onboardRecords_cons, h1, h2]⟩
    | ok p2 =>
      obtain ⟨r2, sB⟩ := p2
      have kne2 : ¬ ((tenant_pk appId t, "POLICY#BASELINE#session-partition-boundary") : String × String) =
          (tenant_pk appId t, "POLICY#BASELINE#tenant-isolation") := by
        intro hh
        have h2x : ("POLICY#BASELINE#session-partition-boundary" : String) = "POLICY#BASELINE#tenant-isolation" := congrArg Prod.snd hh
        exact absurd h2x (by decide)
      have hkeepB : sB.getItem (tenant_pk appId t) "POLICY#BASELINE#session-partition-boundary" = some it := by
        rw [putAbsent_preserves sA _ _ r2 sB _ _ h2 kne2]; exact hkeepA
      obtain ⟨e, he⟩ := putAbsent_mismatch sB
        (policyItem appId t "session-partition-boundary" "session" "tenant" n) policyInvariantFields it f hkeepB hf hne
      exact ⟨(e, sB), by simp only [onboardRecords_cons, h1, h2, he]⟩

/-! ### Claim theorems -/

/-- Claim C7: the callback validates, in order, (1) `code` and `state` both
present, (2) `temp_session_id` cookie present, (3) a temporary auth session
record exists for that id, (4) the stored state equals the presented state;
each of these failures returns status 400 and leaves the store unchanged. -/
theorem C7_validation_failures_400 (appId : String) (store : Store) (now : Int)
    (exchange : Option CbTokenResp) (sid : String) (event : CbEvent) :
    (truthyO (dictGet event.queryStringParameters "code") = false ∨
       truthyO (dictGet event.queryStringParameters "state") = false →
      callback appId store now exchange sid event = .ok (errResp 400 "Missing code or state", store))
  ∧ (truthyO (dictGet event.queryStringParameters "code") = true →
      truthyO (dictGet event.queryStringParameters "state") = true →
      truthyO (tempCookie event) = false →
      callback appId store now exchange sid event = .ok (errResp 400 "Missing temporary session cookie", store))
  ∧ (truthyO (dictGet event.queryStringParameters "code") = true →
      truthyO (dictGet event.queryStringParameters "state") = true →
      truthyO (tempCookie event) = true →
      store.getItem ("APP#" ++ appId ++ "#TEMP") ("SESSION#" ++ (tempCookie event).getD "") = none →
      callback appId store now exchange sid event = .ok (errResp 400 "Session expired or invalid", store))
  ∧ (∀ temp_item,
      truthyO (dictGet event.queryStringParameters "code") = true →
      truthyO (dictGet event.queryStringParameters "state") = true →
      truthyO (tempCookie event) = true →
      store.getItem ("APP#" ++ appId ++ "#TEMP") ("SESSION#" ++ (tempCookie event).getD "") = some temp_item →
      ¬ temp_item.get "state" = some (.s ((dictGet event.queryStringParameters "state").getD "")) →
      callback appId store now exchange sid event = .ok (errResp 400 "Invalid state", store)) := by
  refine ⟨?_, ?_, ?_, ?_⟩
  · intro h
    unfold callback
    rcases h with h | h <;> simp [h]
  · intro hc hs ht
    unfold callback
    simp [hc, hs, ht]
  · intro hc hs ht hget
    unfold callback
    simp [hc, hs, ht, hget]
  · intro temp_item hc hs ht hget hst
    unfold callback
    simp [hc, hs, ht, hget, hst]

/-- Witness for C7 at the four concrete failing inputs. -/
theorem C7_witness :
    callback "app1" tempStore 100 (some trGood) "sid1"
        { queryStringParameters := [("state", "st1")], headers := [("Cookie", "temp_session_id=ts1")] } =
      .ok (errResp 400 "Missing code or state", tempStore)
  ∧ callback "app1" tempStore 100 (some trGood) "sid1"
        { queryStringParameters := [("code", "abc"), ("state", "st1")], headers := [] } =
      .ok (errResp 400 "Missing temporary session cookie", tempStore)
  ∧ callback "app1" [] 100 (some trGood) "sid1" cbEvGood =
      .ok (errResp 400 "Session expired or invalid", [])
  ∧ callback "app1" tempStore 100 (some trGood) "sid1"
        { queryStringParameters := [("code", "abc"), ("state", "zz")], headers := [("Cookie", "temp_session_id=ts1")] } =
      .ok (errResp 400 "Invalid state", tempStore) :=
  ⟨(C7_validation_failures_400 "app1" tempStore 100 (some trGood) "sid1" _).1 (Or.inl rfl),
   (C7_validation_failures_400 "app1" tempStore 100 (some trGood) "sid1" _).2.1 rfl rfl rfl,
   (C7_validation_failures_400 "app1" [] 100 (some trGood) "sid1" _).2.2.1 rfl rfl rfl rfl,
   (C7_validation_failures_400 "app1" tempStore 100 (some trGood) "sid1" _).2.2.2 tempItem1 rfl rfl rfl rfl (by decide)⟩

/-- When onboarding raises, the store it leaves behind agrees with the store
it started from on every key whose sort key is not one of the three
onboarding record sort keys: the raise only ever follows zero or more
conditional writes of those records, and those writes persist. -/
theorem ensure_error_store_aux (a t : String) (n : Int) (s storeErr : Store) (e : String)
    (h : ensure_tenant_onboarding a t n s = .error (e, storeErr)) :
    ∀ pk sk, ¬ sk = "TENANT#META" → ¬ sk = "POLICY#BASELINE#tenant-isolation" →
      ¬ sk = "POLICY#BASELINE#session-partition-boundary" →
      storeErr.getItem pk sk = s.getItem pk sk := by
  simp only [ensure_tenant_onboarding, BASELINE_POLICY_ATTACHMENTS, List.map_cons, List.map_nil] at h
  rw [onboardRecords_cons] at h
  cases h1 : put_item_if_absent s (metaItem a t n) metaInvariantFields with
  | error e1 =>
    simp only [h1, Except.error.injEq, Prod.mk.injEq] at h
    rw [← h.2]
    intro pk sk _ _ _
    rfl
  | ok p1 =>
    obtain ⟨r1, sA⟩ := p1
    simp only [h1] at h
    rw [onboardRecords_cons] at h
    cases h2 : put_item_if_absent sA (policyItem a t "tenant-isolation" "cedar" "tenant" n) policyInvariantFields with
    | error e2 =>
      simp only [h2, Except.error.injEq, Prod.mk.injEq] at h
      intro pk sk hm1 _ _
      rw [← h.2]
      rw [putAbsent_preserves s _ _ r1 sA pk sk h1 ?_]
      intro hh
      have h2x : sk = "TENANT#META" := congrArg Prod.snd hh
      exact hm1 h2x
    | ok p2 =>
      obtain ⟨r2, sB⟩ := p2
      simp only [h2] at h
      rw [onboardRecords_cons] at h
      cases h3 : put_item_if_absent sB (policyItem a t "session-partition-boundary" "session" "tenant" n) policyInvariantFields with
      | error e3 =>
        simp only [h3, Except.error.injEq, Prod.mk.injEq] at h
        intro pk sk hm1 hm2 _
        rw [← h.2]
        rw [putAbsent_preserves sA _ _ r2 sB pk sk h2 ?_]
        · rw [putAbsent_preserves s _ _ r1 sA pk sk h1 ?_]
          intro hh
          have h2x : sk = "TENANT#META" := congrArg Prod.snd hh
          exact hm1 h2x
        · intro hh
          have h2x : sk = "POLICY#BASELINE#tenant-isolation" := congrArg Prod.snd hh
          exact hm2 h2x
      | ok p3 =>
        obtain ⟨r3, sC⟩ := p3
        simp only [h3, onboardRecords] at h
        exact Except.noConfusion h

/-- Claim C3: for every callback invocation in which JIT tenant onboarding
raises, the handler returns status 500 with the table exactly as onboarding
left it; outside the three onboarding record keys (which earlier conditional
writes of the failed run may have created, and which persist) that table
equals the pre-onboarding one, and in particular every `SESSION#` record
present after the invocation was already present before it — no Permanent
Session record is written. -/
theorem C3_onboarding_failure_no_session (appId : String) (store : Store) (now : Int)
    (token_resp : CbTokenResp) (sid : String) (event : CbEvent) (temp_item : Item)
    (e : String) (storeErr : Store)
    (hc : truthyO (dictGet event.queryStringParameters "code") = true)
    (hs : truthyO (dictGet event.queryStringParameters "state") = true)
    (ht : truthyO (tempCookie event) = true)
    (hget : store.getItem ("APP#" ++ appId ++ "#TEMP") ("SESSION#" ++ (tempCookie event).getD "") = some temp_item)
    (hst : temp_item.get "state" = some (.s ((dictGet event.queryStringParameters "state").getD "")))
    (hfail : ensure_tenant_onboarding appId
        ((dictGet (if truthyO token_resp.id_token then decode_jwt_claims token_resp.id_token else []) "tid").getD "unknown")
        now (store.deleteItem ("APP#" ++ appId ++ "#TEMP") ("SESSION#" ++ (tempCookie event).getD "")) = .error (e, storeErr)) :
    callback appId store now (some token_resp) sid event =
      .ok (errResp 500 "Tenant onboarding failed", storeErr)
    ∧ (∀ pk sk, ¬ sk = "TENANT#META" → ¬ sk = "POLICY#BASELINE#tenant-isolation" →
        ¬ sk = "POLICY#BASELINE#session-partition-boundary" →
        storeErr.getItem pk sk =
          (store.deleteItem ("APP#" ++ appId ++ "#TEMP") ("SESSION#" ++ (tempCookie event).getD "")).getItem pk sk)
    ∧ (∀ pk x it, storeErr.getItem pk ("SESSION#" ++ x) = some it →
        store.getItem pk ("SESSION#" ++ x) = some it) := by
  have hpre := ensure_error_store_aux _ _ _ _ _ _ hfail
  refine ⟨?_, hpre, ?_⟩
  · unfold callback
    simp [hc, hs, ht, hget, hst, hfail]
  · intro pk x it h
    have hS : ("SESSION#" ++ x).data.head? = some 'S' := rfl
    have hs1 : ¬ ("SESSION#" ++ x) = "TENANT#META" := by
      intro hh
      have h2x : ("SESSION#" ++ x).data.head? = ("TENANT#META" : String).data.head? :=
        congrArg (fun s : String => s.data.head?) hh
      have hT : ("TENANT#META" : String).data.head? = some 'T' := rfl
      rw [hS, hT] at h2x
      exact absurd h2x (by decide)
    have hs2 : ¬ ("SESSION#" ++ x) = "POLICY#BASELINE#tenant-isolation" := by
      intro hh
      have h2x : ("SESSION#" ++ x).data.head? = ("POLICY#BASELINE#tenant-isolation" : String).data.head? :=
        congrArg (fun s : String => s.data.head?) hh
      have hT : ("POLICY#BASELINE#tenant-isolation" : String).data.head? = some 'P' := rfl
      rw [hS, hT] at h2x
      exact absurd h2x (by decide)
    have hs3 : ¬ ("SESSION#" ++ x) = "POLICY#BASELINE#session-partition-boundary" := by
      intro hh
      have h2x : ("SESSION#" ++ x).data.head? = ("POLICY#BASELINE#session-partition-boundary" : String).data.head? :=
        congrArg (fun s : String => s.data.head?) hh
      have hT : ("POLICY#BASELINE#session-partition-boundary" : String).data.head? = some 'P' := rfl
      rw [hS, hT] at h2x
      exact absurd h2x (by decide)
    rw [hpre pk ("SESSION#" ++ x) hs1 hs2 hs3, getItem_deleteItem] at h
    by_cases hq : ((pk, "SESSION#" ++ x) : String × String) =
        ("APP#" ++ appId ++ "#TEMP", "SESSION#" ++ (tempCookie event).getD "")
    · simp [hq] at h
    · simpa [hq] using h

/-- Witness for C3: onboarding of `t1` fails against a conflicting metadata
record, so nothing is written before the raise: the callback returns 500 and
only the temp session is removed. -/
theorem C3_witness :
    callback "app1" storeBadMeta 100 (some trGood) "sid1" cbEvGood =
      .ok (errResp 500 "Tenant onboarding failed",
        storeBadMeta.deleteItem "APP#app1#TEMP" "SESSION#ts1") :=
  (C3_onboarding_failure_no_session "app1" storeBadMeta 100 trGood "sid1" cbEvGood tempItem1
    "JIT onboarding invariant mismatch for field onboarding_state"
    (storeBadMeta.deleteItem "APP#app1#TEMP" "SESSION#ts1") rfl rfl rfl rfl rfl rfl).1

/-- Claim C2 (counterexample): with a valid temp session and a successful
exchange whose id_token carries no `tid` — in the first input no tenant claim
at all, in the second a `tenant_id` claim the spec says would be used as
fallback — the callback does NOT return 500: it returns 302, onboards tenant
`unknown`, and writes a permanent session under tenant `unknown`. -/
theorem C2_counterexample :
    (callback "app1" tempStore 100 (some trNoClaims) "sid1" cbEvGood =
      .ok ({ statusCode := 302, body := "", location := some "/",
             setCookies := [sessionCookie "unknown" "sid1" 3600, expireTempCookie] },
        (onboardedStore "app1" "unknown" 100).putItem (tenant_pk "app1" "unknown") "SESSION#sid1"
          (sessionItem "app1" "unknown" "sid1" "at1" (some jwtSubOnly) none 3700)))
  ∧ (callback "app1" tempStore 100 (some trNoTid) "sid1" cbEvGood =
      .ok ({ statusCode := 302, body := "", location := some "/",
             setCookies := [sessionCookie "unknown" "sid1" 3600, expireTempCookie] },
        (onboardedStore "app1" "unknown" 100).putItem (tenant_pk "app1" "unknown") "SESSION#sid1"
          (sessionItem "app1" "unknown" "sid1" "at1" (some jwtTenant9) none 3700))) :=
  ⟨rfl, rfl⟩

/-- Claim C2 (amended): the callback obtains the tenant claim from the decoded
id_token as `tid` only (there is no `tenant_id` fallback); when no `tid` claim
is present it does not fail but proceeds with the literal tenant id `unknown`:
JIT onboarding runs for `unknown` and, if it succeeds, a permanent session is
written under tenant `unknown` and 302 is returned. -/
theorem C2_missing_tid_proceeds_as_unknown (appId : String) (store : Store) (now : Int)
    (token_resp : CbTokenResp) (sid : String) (event : CbEvent) (temp_item : Item)
    (store2 : Store) (atk : String)
    (hc : truthyO (dictGet event.queryStringParameters "code") = true)
    (hs : truthyO (dictGet event.queryStringParameters "state") = true)
    (ht : truthyO (tempCookie event) = true)
    (hget : store.getItem ("APP#" ++ appId ++ "#TEMP") ("SESSION#" ++ (tempCookie event).getD "") = some temp_item)
    (hst : temp_item.get "state" = some (.s ((dictGet event.queryStringParameters "state").getD "")))
    (htid : dictGet (if truthyO token_resp.id_token then decode_jwt_claims token_resp.id_token else []) "tid" = none)
    (hok : ensure_tenant_onboarding appId "unknown" now
        (store.deleteItem ("APP#" ++ appId ++ "#TEMP") ("SESSION#" ++ (tempCookie event).getD "")) = .ok store2)
    (hat : token_resp.access_token = some atk) :
    callback appId store now (some token_resp) sid event =
      .ok ({ statusCode := 302, body := "", location := some "/",
             setCookies := [sessionCookie "unknown" sid (token_resp.expires_in.getD 3600), expireTempCookie] },
        store2.putItem (tenant_pk appId "unknown") ("SESSION#" ++ sid)
          (sessionItem appId "unknown" sid atk token_resp.id_token token_resp.refresh_token
            (now + token_resp.expires_in.getD 3600))) := by
  unfold callback
  simp [hc, hs, ht, hget, hst, htid, hok, hat]

/-- Witness for the amended C2 at a concrete input. -/
theorem C2_witness :
    callback "app1" tempStore 100 (some trNoTid) "sid2" cbEvGood =
      .ok ({ statusCode := 302, body := "", location := some "/",
             setCookies := [sessionCookie "unknown" "sid2" 3600, expireTempCookie] },
        (onboardedStore "app1" "unknown" 100).putItem (tenant_pk "app1" "unknown") "SESSION#sid2"
          (sessionItem "app1" "unknown" "sid2" "at1" (some jwtTenant9) none 3700)) :=
  C2_missing_tid_proceeds_as_unknown "app1" tempStore 100 trNoTid "sid2" cbEvGood tempItem1
    (onboardedStore "app1" "unknown" 100) "at1" rfl rfl rfl rfl rfl rfl rfl rfl

/-- Claim C5: onboarding is idempotent — a second run over the store produced
by a successful run (where every conditional write fails and every invariant
field of every existing record matches what would be written) raises nothing
and leaves the store identical; and if any invariant field of any of the three
existing records (metadata or either baseline policy attachment) differs from
the value that would be written, onboarding raises a hard error instead of
overwriting. -/
theorem C5_onboarding_idempotent :
    (∀ appId t n1 n2 s s1,
       ensure_tenant_onboarding appId t n1 s = .ok s1 →
       ensure_tenant_onboarding appId t n2 s1 = .ok s1)
  ∧ (∀ appId t n s it f,
       s.getItem (tenant_pk appId t) "TENANT#META" = some it →
       f ∈ metaInvariantFields →
       ¬ it.get f = (metaItem appId t n).get f →
       ∃ e, ensure_tenant_onboarding appId t n s = .error e)
  ∧ (∀ appId t n s it f,
       s.getItem (tenant_pk appId t) "POLICY#BASELINE#tenant-isolation" = some it →
       f ∈ policyInvariantFields →
       ¬ it.get f = (policyItem appId t "tenant-isolation" "cedar" "tenant" n).get f →
       ∃ e, ensure_tenant_onboarding appId t n s = .error e)
  ∧ (∀ appId t n s it f,
       s.getItem (tenant_pk appId t) "POLICY#BASELINE#session-partition-boundary" = some it →
       f ∈ policyInvariantFields →
       ¬ it.get f = (policyItem appId t "session-partition-boundary" "session" "tenant" n).get f →
       ∃ e, ensure_tenant_onboarding appId t n s = .error e) :=
  ⟨fun a t n1 n2 s s1 h => ensure_onboarding_idempotent_aux a t n1 n2 s s1 h,
   fun a t n s it f hget hf hne => ensure_meta_mismatch_aux a t n s it f hget hf hne,
   fun a t n s it f hget hf hne => ensure_policy1_mismatch_aux a t n s it f hget hf hne,
   fun a t n s it f hget hf hne => ensure_policy2_mismatch_aux a t n s it f hget hf hne⟩

/-- Witness for C5: a concrete second onboarding run over the store produced by
a first run is a no-op, and a concrete conflicting metadata record makes
onboarding raise. -/
theorem C5_witness :
    ensure_tenant_onboarding "a1" "t1" 9 (onboardedStore "a1" "t1" 7) = .ok (onboardedStore "a1" "t1" 7)
  ∧ ∃ e, ensure_tenant_onboarding "app1" "t1" 100 storeBadMeta = .error e :=
  ⟨C5_onboarding_idempotent.1 "a1" "t1" 7 9 [] (onboardedStore "a1" "t1" 7) rfl,
   C5_onboarding_idempotent.2.1 "app1" "t1" 100 storeBadMeta badMeta "onboarding_state"
     rfl (by decide) (by decide)⟩

/-- Claim C8 (tail case): the expiry/refresh step never attaches a context to
a Deny and attaches one exactly on Allow. -/
theorem expiryRefreshStep_context_aux (appId : String) (store : Store) (now : Int)
    (resp : Option RefreshResp) (arn t sid : String) (claims : List (String × String))
    (atAttr : AttrVal) (exp : Int) (rt : Option AttrVal) (p : Policy) (s' : Store)
    (h : expiryRefreshStep appId store now resp arn t sid claims atAttr exp rt = .ok (p, s')) :
    (p.effect = "Deny" → p.context = none) ∧ (¬ p.context = none → p.effect = "Allow") := by
  unfold expiryRefreshStep at h
  repeat' split at h
  all_goals
    simp only [Except.ok.injEq, Prod.mk.injEq] at h
  all_goals
    obtain ⟨hp, hs⟩ := h
  all_goals
    subst hp
  all_goals
    constructor
  all_goals
    intro hx
  all_goals
    first
    | rfl
    | exact absurd hx (by simp [denyPolicy, generate_policy])

/-- Claim C8: every Deny decision produced by the authorizer carries no
context map; a context is attached only to Allow decisions. -/
theorem C8_deny_has_no_context (appId : String) (store : Store) (now : Int)
    (resp : Option RefreshResp) (event : AuthEvent) (p : Policy) (s' : Store)
    (h : authorizer_handler appId store now resp event = .ok (p, s')) :
    (p.effect = "Deny" → p.context = none) ∧ (¬ p.context = none → p.effect = "Allow") := by
  have hdeny : ∀ st2 : Store,
      (Except.ok (denyPolicy event.methodArn, st2) : Except Unit (Policy × Store)) = .ok (p, s') →
      (p.effect = "Deny" → p.context = none) ∧ (¬ p.context = none → p.effect = "Allow") := by
    intro st2 hh
    simp only [Except.ok.injEq, Prod.mk.injEq] at hh
    obtain ⟨hp, _⟩ := hh
    subst hp
    exact ⟨fun _ => rfl, fun hc => absurd rfl hc⟩
  unfold authorizer_handler at h
  cases hc1 : findCookieHeader event.headers with
  | none => rw [hc1] at h; exact hdeny _ h
  | some ch =>
    simp only [hc1] at h
    cases hc2 : dictGet (parseCookies ch) "session_id" with
    | none => rw [hc2] at h; exact hdeny _ h
    | some raw =>
      simp only [hc2] at h
      by_cases h3 : raw = ""
      · rw [if_pos h3] at h; exact hdeny _ h
      · rw [if_neg h3] at h
        by_cases h4 : containsChar ':' raw = true
        · rw [if_neg (by simp [h4])] at h
          cases hc5 : Store.getItem store ("APP#" ++ appId ++ "#TENANT#" ++ (pySplit1 ':' raw).1)
              ("SESSION#" ++ (pySplit1 ':' raw).2) with
          | none => rw [hc5] at h; exact hdeny _ h
          | some item =>
            simp only [hc5] at h
            by_cases h6 : attrStrD (item.get "tenant_id") "" ≠ "" ∧
                attrStrD (item.get "tenant_id") "" ≠ (pySplit1 ':' raw).1
            · rw [if_pos h6] at h; exact hdeny _ h
            · rw [if_neg h6] at h
              by_cases h7 : attrStrD (item.get "app_id") "" ≠ "" ∧ attrStrD (item.get "app_id") "" ≠ appId
              · rw [if_pos h7] at h; exact hdeny _ h
              · rw [if_neg h7] at h
                by_cases h8 : attrStrD (item.get "session_id") (pySplit1 ':' raw).2 ≠ "" ∧
                    attrStrD (item.get "session_id") (pySplit1 ':' raw).2 ≠ (pySplit1 ':' raw).2
                · rw [if_pos h8] at h; exact hdeny _ h
                · rw [if_neg h8] at h
                  cases hc9 : extract_tenant_claim item with
                  | none => rw [hc9] at h; exact hdeny _ h
                  | some pr =>
                    obtain ⟨ct, claims⟩ := pr
                    simp only [hc9] at h
                    by_cases h10 : ct ≠ (pySplit1 ':' raw).1
                    · rw [if_pos h10] at h; exact hdeny _ h
                    · rw [if_neg h10] at h
                      cases hc11 : item.get "access_token" with
                      | none => rw [hc11] at h; exact Except.noConfusion h
                      | some atAttr =>
                        simp only [hc11] at h
                        cases hc12 : item.get "expires_at" with
                        | none => rw [hc12] at h; exact Except.noConfusion h
                        | some v =>
                          cases v with
                          | s a => simp only [hc12] at h; exact Except.noConfusion h
                          | null => simp only [hc12] at h; exact Except.noConfusion h
                          | n exp =>
                            simp only [hc12] at h
                            exact expiryRefreshStep_context_aux _ _ _ _ _ _ _ _ _ _ _ _ _ h
        · rw [if_pos (by simp [h4])] at h; exact hdeny _ h

/-- Witness for C8 at a concrete denied request. -/
theorem C8_witness :
    ((denyPolicy "arn1").effect = "Deny" → (denyPolicy "arn1").context = none)
  ∧ (¬ (denyPolicy "arn1").context = none → (denyPolicy "arn1").effect = "Allow") :=
  C8_deny_has_no_context "app1" [] 0 none { headers := [], methodArn := "arn1" }
    (denyPolicy "arn1") [] rfl

/-- Claim C1 (amended): after a composite-key lookup returns a record, a
stored `tenant_id`, `app_id`, or `session_id` field that is NON-EMPTY (as a
string) and differs from, respectively, the cookie-derived tenant id, the
configured app id, or the cookie-derived session id makes the authorizer
return Deny; an absent or empty stored field is skipped rather than compared. -/
theorem C1_stored_field_mismatch_denies (appId : String) (store : Store) (now : Int)
    (resp : Option RefreshResp) (event : AuthEvent) (ch raw : String) (item : Item)
    (hch : findCookieHeader event.headers = some ch)
    (hraw : dictGet (parseCookies ch) "session_id" = some raw)
    (hne : ¬ raw = "")
    (hcol : containsChar ':' raw = true)
    (hitem : store.getItem ("APP#" ++ appId ++ "#TENANT#" ++ (pySplit1 ':' raw).1)
        ("SESSION#" ++ (pySplit1 ':' raw).2) = some item) :
    (¬ attrStrD (item.get "tenant_id") "" = "" →
     ¬ attrStrD (item.get "tenant_id") "" = (pySplit1 ':' raw).1 →
       authorizer_handler appId store now resp event = .ok (denyPolicy event.methodArn, store))
  ∧ (¬ attrStrD (item.get "app_id") "" = "" →
     ¬ attrStrD (item.get "app_id") "" = appId →
       authorizer_handler appId store now resp event = .ok (denyPolicy event.methodArn, store))
  ∧ (¬ attrStrD (item.get "session_id") (pySplit1 ':' raw).2 = "" →
     ¬ attrStrD (item.get "session_id") (pySplit1 ':' raw).2 = (pySplit1 ':' raw).2 →
       authorizer_handler appId store now resp event = .ok (denyPolicy event.methodArn, store)) := by
  refine ⟨?_, ?_, ?_⟩
  · intro h1 h2
    unfold authorizer_handler
    simp [hch, hraw, hne, hcol, hitem, h1, h2]
  · intro h1 h2
    unfold authorizer_handler
    by_cases ht : attrStrD (item.get "tenant_id") "" ≠ "" ∧
        attrStrD (item.get "tenant_id") "" ≠ (pySplit1 ':' raw).1
    · simp [hch, hraw, hne, hcol, hitem, ht]
    · simp [hch, hraw, hne, hcol, hitem, ht, h1, h2]
  · intro h1 h2
    unfold authorizer_handler
    by_cases ht : attrStrD (item.get "tenant_id") "" ≠ "" ∧
        attrStrD (item.get "tenant_id") "" ≠ (pySplit1 ':' raw).1
    · simp [hch, hraw, hne, hcol, hitem, ht]
    · by_cases ha : attrStrD (item.get "app_id") "" ≠ "" ∧ attrStrD (item.get "app_id") "" ≠ appId
      · simp [hch, hraw, hne, hcol, hitem, ht, ha]
      · simp [hch, hraw, hne, hcol, hitem, ht, ha, h1, h2]

/-- Claim C1 (counterexample): a record whose stored `app_id` is the empty
string — which differs from the configured app id `app1` — is not denied: the
request is allowed, so the claim as stated (any differing stored field is a
Deny) is false on the code. -/
theorem C1_counterexample :
    attrStrD (itemEmptyApp.get "app_id") "" = "" ∧ ¬ (("" : String) = "app1") ∧
    authorizer_handler "app1" storeEmptyApp 0 none evT1S1 =
      .ok (generate_policy "s1" "Allow" "arn1"
        (some (allowContext "at1" "s1" "t1" "app1" [("tid", "t1")])), storeEmptyApp) :=
  ⟨rfl, by decide, rfl⟩

/-- Witness for the amended C1 at a concrete mismatching record. -/
theorem C1_witness :
    authorizer_handler "app1" storeWrongTenant 0 none evT1S1 =
      .ok (denyPolicy "arn1", storeWrongTenant) :=
  (C1_stored_field_mismatch_denies "app1" storeWrongTenant 0 none evT1S1
    "session_id=t1:s1" "t1:s1" itemWrongTenant rfl rfl (by decide) rfl rfl).1
    (by decide) (by decide)

/-- Claim C6 (amended): the authorizer returns Deny with the store untouched —
identically for every store state — when the headers contain no cookie header,
when the cookies contain no (or an empty) `session_id` value, or when the
`session_id` value contains no `:` at all; a value with two or more colons is
split at the first colon and does reach the store lookup. -/
theorem C6_malformed_cookie_denies (appId : String) (store : Store) (now : Int)
    (resp : Option RefreshResp) (event : AuthEvent) :
    (findCookieHeader event.headers = none →
       authorizer_handler appId store now resp event = .ok (denyPolicy event.methodArn, store))
  ∧ (∀ ch, findCookieHeader event.headers = some ch →
       dictGet (parseCookies ch) "session_id" = none ∨ dictGet (parseCookies ch) "session_id" = some "" →
       authorizer_handler appId store now resp event = .ok (denyPolicy event.methodArn, store))
  ∧ (∀ ch raw, findCookieHeader event.headers = some ch →
       dictGet (parseCookies ch) "session_id" = some raw →
       containsChar ':' raw = false →
       authorizer_handler appId store now resp event = .ok (denyPolicy event.methodArn, store)) := by
  refine ⟨?_, ?_, ?_⟩
  · intro h
    unfold authorizer_handler
    simp [h]
  · intro ch hch hraw
    unfold authorizer_handler
    rcases hraw with h | h <;> simp [hch, h]
  · intro ch raw hch hraw hcol
    unfold authorizer_handler
    by_cases hne : raw = ""
    · simp [hch, hraw, hne]
    · simp [hch, hraw, hne, hcol]

/-- Claim C6 (counterexample): the cookie value `t1:s1:x` does not contain
exactly one colon, yet the decision depends on the store: Deny on the empty
store but Allow when a matching record exists under session id `s1:x` — so the
store is queried and the claim as stated is false on the code. -/
theorem C6_counterexample :
    (("t1:s1:x".data.filter (fun c => c = ':')).length = 2
  ∧ authorizer_handler "app1" [] 0 none evTwoColon = .ok (denyPolicy "arn1", []))
  ∧ authorizer_handler "app1" storeTwoColon 0 none evTwoColon =
      .ok (generate_policy "s1:x" "Allow" "arn1"
        (some (allowContext "at1" "s1:x" "t1" "app1" [("tid", "t1")])), storeTwoColon) :=
  ⟨⟨by decide, rfl⟩, rfl⟩

/-- Witness for the amended C6 at a concrete colon-free cookie value. -/
theorem C6_witness :
    authorizer_handler "app1" storeGood 5 none evNoColon =
      .ok (denyPolicy "arn1", storeGood) :=
  (C6_malformed_cookie_denies "app1" storeGood 5 none evNoColon).2.2
    "session_id=nocolon" "nocolon" rfl rfl rfl

/-- Claim C4: in the authorizer, once a session has passed the field and claim
checks, with stored expiry `exp`: (1) when `exp` is within 300 seconds of now
(or past) and a truthy refresh token is stored, a refresh exchange returning a
truthy (non-empty) access token yields Allow with the new access token and the
stored record updated in place with the new
`access_token`/`refresh_token`/`expires_at`; (2) when the exchange fails (no
response, or no `access_token` key) and the session is already expired, Deny
with the store untouched; (3) when it fails that way but the session is not
yet expired, Allow with the existing token and the store untouched; (4) when
no refresh is attempted (window not reached or no truthy refresh token) and
the session is expired, Deny; and the `if new_token:` truthiness edge: an
exchange returning `access_token = ""` has already updated the record but is
treated as a failed refresh, so (5) if already expired the result is Deny and
(6) otherwise Allow with the OLD access token — in both cases over the
updated store. -/
theorem C4_refresh_window_behavior (appId : String) (store : Store) (now : Int)
    (resp : Option RefreshResp) (event : AuthEvent) (ch raw : String) (item : Item)
    (ct : String) (claims : List (String × String)) (atk : String) (exp : Int)
    (hch : findCookieHeader event.headers = some ch)
    (hraw : dictGet (parseCookies ch) "session_id" = some raw)
    (hne : ¬ raw = "")
    (hcol : containsChar ':' raw = true)
    (hitem : store.getItem ("APP#" ++ appId ++ "#TENANT#" ++ (pySplit1 ':' raw).1)
        ("SESSION#" ++ (pySplit1 ':' raw).2) = some item)
    (ht : ¬ (attrStrD (item.get "tenant_id") "" ≠ "" ∧
        attrStrD (item.get "tenant_id") "" ≠ (pySplit1 ':' raw).1))
    (ha : ¬ (attrStrD (item.get "app_id") "" ≠ "" ∧ attrStrD (item.get "app_id") "" ≠ appId))
    (hsid : ¬ (attrStrD (item.get "session_id") (pySplit1 ':' raw).2 ≠ "" ∧
        attrStrD (item.get "session_id") (pySplit1 ':' raw).2 ≠ (pySplit1 ':' raw).2))
    (hclaim : extract_tenant_claim item = some (ct, claims))
    (hcteq : ct = (pySplit1 ':' raw).1)
    (hat : item.get "access_token" = some (.s atk))
    (hexp : item.get "expires_at" = some (.n exp)) :
    (∀ r nt, exp < now + 300 → attrTruthyO (item.get "refresh_token") = true →
       resp = some r → r.access_token = some nt → ¬ nt = "" →
       authorizer_handler appId store now resp event =
         .ok (generate_policy (pySplit1 ':' raw).2 "Allow" event.methodArn
             (some (allowContext nt (pySplit1 ':' raw).2 (pySplit1 ':' raw).1 appId claims)),
           store.updateSessionTokens ("APP#" ++ appId ++ "#TENANT#" ++ (pySplit1 ':' raw).1)
             ("SESSION#" ++ (pySplit1 ':' raw).2) nt
             (r.refresh_token.getD (attrStrD (item.get "refresh_token") ""))
             (now + r.expires_in.getD 3600)))
  ∧ (exp < now + 300 → attrTruthyO (item.get "refresh_token") = true →
       resp = none ∨ (∃ r, resp = some r ∧ r.access_token = none) →
       exp < now →
       authorizer_handler appId store now resp event = .ok (denyPolicy event.methodArn, store))
  ∧ (exp < now + 300 → attrTruthyO (item.get "refresh_token") = true →
       resp = none ∨ (∃ r, resp = some r ∧ r.access_token = none) →
       ¬ exp < now →
       authorizer_handler appId store now resp event =
         .ok (generate_policy (pySplit1 ':' raw).2 "Allow" event.methodArn
             (some (allowContext atk (pySplit1 ':' raw).2 (pySplit1 ':' raw).1 appId claims)), store))
  ∧ (¬ (exp < now + 300 ∧ attrTruthyO (item.get "refresh_token") = true) →
       exp < now →
       authorizer_handler appId store now resp event = .ok (denyPolicy event.methodArn, store))
  ∧ (∀ r, exp < now + 300 → attrTruthyO (item.get "refresh_token") = true →
       resp = some r → r.access_token = some "" →
       exp < now →
       authorizer_handler appId store now resp event =
         .ok (denyPolicy event.methodArn,
           store.updateSessionTokens ("APP#" ++ appId ++ "#TENANT#" ++ (pySplit1 ':' raw).1)
             ("SESSION#" ++ (pySplit1 ':' raw).2) ""
             (r.refresh_token.getD (attrStrD (item.get "refresh_token") ""))
             (now + r.expires_in.getD 3600)))
  ∧ (∀ r, exp < now + 300 → attrTruthyO (item.get "refresh_token") = true →
       resp = some r → r.access_token = some "" →
       ¬ exp < now →
       authorizer_handler appId store now resp event =
         .ok (generate_policy (pySplit1 ':' raw).2 "Allow" event.methodArn
             (some (allowContext atk (pySplit1 ':' raw).2 (pySplit1 ':' raw).1 appId claims)),
           store.updateSessionTokens ("APP#" ++ appId ++ "#TENANT#" ++ (pySplit1 ':' raw).1)
             ("SESSION#" ++ (pySplit1 ':' raw).2) ""
             (r.refresh_token.getD (attrStrD (item.get "refresh_token") ""))
             (now + r.expires_in.getD 3600))) := by
  have hstep : authorizer_handler appId store now resp event =
      expiryRefreshStep appId store now resp event.methodArn (pySplit1 ':' raw).1
        (pySplit1 ':' raw).2 claims (.s atk) exp (item.get "refresh_token") := by
    unfold authorizer_handler
    simp [hch, hraw, hne, hcol, hitem, ht, ha, hsid, hclaim, hcteq, hat, hexp]
  refine ⟨?_, ?_, ?_, ?_, ?_, ?_⟩
  · intro r nt h1 h2 h3 h4 h5
    subst h3
    rw [hstep]
    unfold expiryRefreshStep
    simp [h1, h2, refresh_session, h4, truthyO, h5]
  · intro h1 h2 h3 h4
    rw [hstep]
    unfold expiryRefreshStep
    rcases h3 with h3 | ⟨r, h3, h5⟩
    · subst h3; simp [h1, h2, h4, refresh_session, truthyO]
    · subst h3; simp [h1, h2, h4, refresh_session, h5, truthyO]
  · intro h1 h2 h3 h4
    rw [hstep]
    unfold expiryRefreshStep
    rcases h3 with h3 | ⟨r, h3, h5⟩
    · subst h3; simp [h1, h2, h4, refresh_session, truthyO, attrStr]
    · subst h3; simp [h1, h2, h4, refresh_session, h5, truthyO, attrStr]
  · intro h1 h2
    rw [hstep]
    unfold expiryRefreshStep
    simp [h1, h2]
  · intro r h1 h2 h3 h4 h5
    subst h3
    rw [hstep]
    unfold expiryRefreshStep
    simp [h1, h2, refresh_session, h4, truthyO, h5]
  · intro r h1 h2 h3 h4 h5
    subst h3
    rw [hstep]
    unfold expiryRefreshStep
    simp [h1, h2, refresh_session, h4, truthyO, h5, attrStr]

/-- Witness for C4 at a concrete near-expiry session with a successful refresh:
Allow with the new token and the record updated in place. -/
theorem C4_witness :
    authorizer_handler "app1" storeNearExpiry 0 (some rrGood) evT1S1 =
      .ok (generate_policy "s1" "Allow" "arn1"
          (some (allowContext "at2" "s1" "t1" "app1" [("tid", "t1")])),
        storeNearExpiry.updateSessionTokens "APP#app1#TENANT#t1" "SESSION#s1" "at2" "rt2" 7200) :=
  (C4_refresh_window_behavior "app1" storeNearExpiry 0 (some rrGood) evT1S1
    "session_id=t1:s1" "t1:s1" itemNearExpiry "t1" [("tid", "t1")] "at1" 100
    rfl rfl (by decide) rfl rfl (by decide) (by decide) (by decide) rfl rfl rfl rfl).1
    rrGood "at2" (by decide) rfl rfl rfl (by decide)

/-! ### PKCE lemmas -/

/-- An in-bounds `getD` returns a list member. -/
theorem getD_mem_of_lt {α : Type} (l : List α) (n : Nat) (d : α) (h : n < l.length) :
    l.getD n d ∈ l := by
  induction l generalizing n with
  | nil => simp at h
  | cons a rest ih =>
    cases n with
    | zero => simp [List.getD]
    | succ m =>
      simp only [List.getD_cons_succ]
      exact List.mem_cons_of_mem _ (ih m (by simpa using h))

/-- Base64 characters with in-range indices come from the URL-safe alphabet. -/
theorem b64Char_lt_mem (n : Nat) (h : n < 64) : b64Char n ∈ urlsafeAlphabet := by
  unfold b64Char
  exact getD_mem_of_lt _ _ _ (by simpa [urlsafeAlphabet] using h)

/-- Every character the encoder emits for in-range bytes is padding or an
alphabet character. -/
theorem b64urlEncode_mem (bs : List Nat) (hb : ∀ b ∈ bs, b < 256) :
    ∀ c ∈ b64urlEncode bs, c = '=' ∨ c ∈ urlsafeAlphabet := by
  induction bs using b64urlEncode.induct with
  | case1 => simp [b64urlEncode]
  | case2 b1 =>
    intro c hc
    have h1 : b1 < 256 := hb b1 (by simp)
    simp only [b64urlEncode, List.mem_cons, List.not_mem_nil, or_false] at hc
    rcases hc with rfl | rfl | rfl | rfl
    · exact Or.inr (b64Char_lt_mem _ (by omega))
    · exact Or.inr (b64Char_lt_mem _ (by omega))
    · exact Or.inl rfl
    · exact Or.inl rfl
  | case3 b1 b2 =>
    intro c hc
    have h1 : b1 < 256 := hb b1 (by simp)
    have h2 : b2 < 256 := hb b2 (by simp)
    simp only [b64urlEncode, List.mem_cons, List.not_mem_nil, or_false] at hc
    rcases hc with rfl | rfl | rfl | rfl
    · exact Or.inr (b64Char_lt_mem _ (by omega))
    · exact Or.inr (b64Char_lt_mem _ (by omega))
    · exact Or.inr (b64Char_lt_mem _ (by omega))
    · exact Or.inl rfl
  | case4 b1 b2 b3 rest ih =>
    intro c hc
    have h1 : b1 < 256 := hb b1 (by simp)
    have h2 : b2 < 256 := hb b2 (by simp)
    have h3 : b3 < 256 := hb b3 (by simp)
    simp only [b64urlEncode, List.mem_cons] at hc
    rcases hc with rfl | rfl | rfl | rfl | hc
    · exact Or.inr (b64Char_lt_mem _ (by omega))
    · exact Or.inr (b64Char_lt_mem _ (by omega))
    · exact Or.inr (b64Char_lt_mem _ (by omega))
    · exact Or.inr (b64Char_lt_mem _ (by omega))
    · exact ih (fun b hbm => hb b (by simp [hbm])) c hc

/-- Base64 characters with in-range indices are never the padding character. -/
theorem b64Char_ne_pad (n : Nat) (h : n < 64) : ¬ b64Char n = '=' :=
  fun he => absurd (he ▸ b64Char_lt_mem n h) (by decide)

/-- Every byte of a SHA-256 digest is in range. -/
theorem sha256_bytes_lt (msg : List Nat) : ∀ b ∈ sha256 msg, b < 256 := by
  unfold sha256
  intro b hb
  rw [List.mem_flatten] at hb
  obtain ⟨l, hl, hbl⟩ := hb
  rw [List.mem_map] at hl
  obtain ⟨w, _, rfl⟩ := hl
  simp only [wordBytes, List.mem_cons, List.not_mem_nil, or_false] at hbl
  rcases hbl with rfl | rfl | rfl | rfl <;> omega

/-- Length of the padding-stripped encoding of `n` bytes. -/
theorem b64_filter_length (bs : List Nat) (hb : ∀ b ∈ bs, b < 256) :
    ((b64urlEncode bs).filter (fun c => ¬ c = '=')).length = (4 * bs.length + 2) / 3 := by
  induction bs using b64urlEncode.induct with
  | case1 => simp [b64urlEncode]
  | case2 b1 =>
    have h1 : b1 < 256 := hb b1 (by simp)
    simp [b64urlEncode, List.filter,
      b64Char_ne_pad (b1 / 4) (by omega), b64Char_ne_pad (b1 % 4 * 16) (by omega)]
  | case3 b1 b2 =>
    have h1 : b1 < 256 := hb b1 (by simp)
    have h2 : b2 < 256 := hb b2 (by simp)
    simp [b64urlEncode, List.filter, b64Char_ne_pad (b1 / 4) (by omega),
      b64Char_ne_pad (b1 % 4 * 16 + b2 / 16) (by omega), b64Char_ne_pad (b2 % 16 * 4) (by omega)]
  | case4 b1 b2 b3 rest ih =>
    have h1 : b1 < 256 := hb b1 (by simp)
    have h2 : b2 < 256 := hb b2 (by simp)
    have h3 : b3 < 256 := hb b3 (by simp)
    have ih' := ih (fun b hbm => hb b (by simp [hbm]))
    simp only [decide_not] at ih'
    simp only [b64urlEncode, List.filter_cons]
    simp only [decide_not]
    rw [if_pos, if_pos, if_pos, if_pos]
    · simp only [List.length_cons, ih', List.length_cons]
      omega
    all_goals
      simp [b64Char_ne_pad (b1 / 4) (by omega), b64Char_ne_pad (b1 % 4 * 16 + b2 / 16) (by omega),
        b64Char_ne_pad (b2 % 16 * 4 + b3 / 64) (by omega), b64Char_ne_pad (b3 % 64) (by omega)]

/-- Known-answer test for the SHA-256 model: the FIPS 180-4 vector for "abc". -/
theorem sha256_abc :
    sha256 (asciiBytes "abc") =
  [186, 120, 22, 191, 143, 1, 207, 234, 65, 65, 64, 222, 93, 174, 34, 35,
   176, 3, 97, 163, 150, 23, 122, 156, 180, 16, 255, 97, 242, 0, 21, 173] := by
  decide

/-- Claim C9: for a 32-byte random input, `generate_pkce_pair` returns a
verifier that is the unpadded URL-safe base64 form of those bytes (43
characters, all in the URL-safe alphabet, no padding), and a challenge equal
to the unpadded URL-safe base64 encoding of the SHA-256 digest of the
verifier's ASCII bytes; the challenge is deterministic in the verifier and
contains no `=`, `+`, or `/` characters. -/
theorem C9_pkce_pair (bytes : List Nat) (hlen : bytes.length = 32) (hb : ∀ b ∈ bytes, b < 256) :
    (∀ c ∈ (generate_pkce_pair bytes).1.data, c ∈ urlsafeAlphabet ∧ ¬ c = '=')
  ∧ (generate_pkce_pair bytes).1.length = 43
  ∧ (generate_pkce_pair bytes).2 =
      String.mk ((b64urlEncode (sha256 (asciiBytes (generate_pkce_pair bytes).1))).filter (fun c => ¬ c = '='))
  ∧ (∀ c ∈ (generate_pkce_pair bytes).2.data, c ∈ urlsafeAlphabet ∧ ¬ c = '=' ∧ ¬ c = '+' ∧ ¬ c = '/')
  ∧ (∀ bytes2 : List Nat, (generate_pkce_pair bytes2).1 = (generate_pkce_pair bytes).1 →
      (generate_pkce_pair bytes2).2 = (generate_pkce_pair bytes).2) := by
  refine ⟨?_, ?_, ?_, ?_, ?_⟩
  · intro c hc
    simp only [generate_pkce_pair, List.mem_filter, decide_not, Bool.not_eq_true',
      decide_eq_false_iff_not] at hc
    obtain ⟨hmem, hne⟩ := hc
    rcases b64urlEncode_mem bytes hb c hmem with h | h
    · exact absurd h hne
    · exact ⟨h, hne⟩
  · show ((b64urlEncode bytes).filter _).length = 43
    rw [b64_filter_length bytes hb, hlen]
  · rfl
  · intro c hc
    simp only [generate_pkce_pair, List.mem_filter, decide_not, Bool.not_eq_true',
      decide_eq_false_iff_not] at hc
    obtain ⟨hmem, hne⟩ := hc
    rcases b64urlEncode_mem _ (sha256_bytes_lt _) c hmem with h | h
    · exact absurd h hne
    · exact ⟨h, hne, fun he => absurd (he ▸ h) (by decide), fun he => absurd (he ▸ h) (by decide)⟩
  · intro bytes2 h
    simp only [generate_pkce_pair] at h ⊢
    rw [h]

/-- Witness for C9 at the concrete byte list `0, 1, ..., 31`. -/
theorem C9_witness :
    (∀ c ∈ (generate_pkce_pair (List.range 32)).1.data, c ∈ urlsafeAlphabet ∧ ¬ c = '=')
  ∧ (generate_pkce_pair (List.range 32)).1.length = 43
  ∧ (generate_pkce_pair (List.range 32)).2 =
      String.mk ((b64urlEncode (sha256 (asciiBytes (generate_pkce_pair (List.range 32)).1))).filter (fun c => ¬ c = '='))
  ∧ (∀ c ∈ (generate_pkce_pair (List.range 32)).2.data, c ∈ urlsafeAlphabet ∧ ¬ c = '=' ∧ ¬ c = '+' ∧ ¬ c = '/')
  ∧ (∀ bytes2 : List Nat, (generate_pkce_pair bytes2).1 = (generate_pkce_pair (List.range 32)).1 →
      (generate_pkce_pair bytes2).2 = (generate_pkce_pair (List.range 32)).2) :=
  C9_pkce_pair (List.range 32) (by decide) (by decide)

/-! ### Cookie-parsing lemmas -/

/-- A split on a character that does not occur returns the whole list. -/
theorem pySplit_no_sep (sep : Char) (l : List Char) (h : ¬ sep ∈ l) : pySplit sep l = [l] := by
  induction l with
  | nil => rfl
  | cons c rest ih =>
    simp only [List.mem_cons, not_or] at h
    simp only [pySplit]
    rw [if_neg (fun hc => h.1 hc.symm), ih h.2]

/-- Splitting a list that starts with a separator-free prefix peels it off. -/
theorem pySplit_append (sep : Char) (a b : List Char) (h : ¬ sep ∈ a) :
    pySplit sep (a ++ sep :: b) = a :: pySplit sep b := by
  induction a with
  | nil => simp [pySplit]
  | cons c rest ih =>
    simp only [List.mem_cons, not_or] at h
    simp only [List.cons_append, pySplit]
    rw [if_neg (fun hc => h.1 hc.symm)]
    have hih := ih h.2
    simp only [List.append_eq] at *
    simp only [hih]

/-- Claim C10: the cookie parsing shared by the Callback and the Authorizer
(`parseCookies`, the embedding of the identical dict-comprehension line in
both files) keeps only `split("=")` element 1, so a cookie value containing an
`=` is silently truncated at its first `=`: generally, a header
`session_id=<v1>=<v2>` parses to value `v1`; concretely, `session_id=a:b=c`
parses to `a:b`, and the Authorizer on that cookie looks up tenant `a`,
session `b` and can allow against a record stored under that key. -/
theorem C10_cookie_value_truncated :
    (∀ v1 v2 : List Char,
       ¬ '=' ∈ v1 → ¬ ';' ∈ v1 → ¬ ';' ∈ v2 → pyStripL v1 = v1 →
       dictGet (parseCookies (String.mk ("session_id=".data ++ v1 ++ '=' :: v2))) "session_id" =
         some (String.mk v1))
  ∧ dictGet (parseCookies "session_id=a:b=c") "session_id" = some "a:b"
  ∧ tempCookie { queryStringParameters := [],
                 headers := [("Cookie", "temp_session_id=x=y")] } = some "x"
  ∧ authorizer_handler "app1" storeTidA 0 none evValueWithEq =
      .ok (generate_policy "b" "Allow" "arn1"
        (some (allowContext "at1" "b" "a" "app1" [("tid", "a")])), storeTidA) := by
  refine ⟨?_, by decide, by decide, rfl⟩
  intro v1 v2 h1 h2 h3 hstrip
  have hcs : ("session_id=".data ++ v1 ++ '=' :: v2) =
      "session_id".data ++ '=' :: (v1 ++ '=' :: v2) := rfl
  have hsemi : ¬ ';' ∈ ("session_id=".data ++ v1 ++ '=' :: v2) := by
    intro hm
    rw [List.mem_append] at hm
    rcases hm with hm | hm
    · rw [List.mem_append] at hm
      rcases hm with hm | hm
      · exact absurd hm (by decide)
      · exact h2 hm
    · rw [List.mem_cons] at hm
      rcases hm with hm | hm
      · exact absurd hm (by decide)
      · exact h3 hm
  have heq : ¬ '=' ∈ ("session_id".data : List Char) := by decide
  unfold parseCookies
  have hsplit1 : pySplitStr ';' (String.mk ("session_id=".data ++ v1 ++ '=' :: v2)) =
      [String.mk ("session_id=".data ++ v1 ++ '=' :: v2)] := by
    unfold pySplitStr
    rw [show (String.mk ("session_id=".data ++ v1 ++ '=' :: v2)).data =
        ("session_id=".data ++ v1 ++ '=' :: v2) from rfl]
    rw [pySplit_no_sep ';' _ hsemi]
    rfl
  rw [hsplit1]
  simp only [List.foldl]
  have hcontains : containsChar '=' (String.mk ("session_id=".data ++ v1 ++ '=' :: v2)) = true := by
    unfold containsChar
    rw [List.any_eq_true]
    exact ⟨'=', by rw [hcs]; simp, by simp⟩
  rw [if_pos hcontains]
  have hsplit2 : pySplitStr '=' (String.mk ("session_id=".data ++ v1 ++ '=' :: v2)) =
      "session_id" :: String.mk v1 :: (pySplit '=' v2).map String.mk := by
    unfold pySplitStr
    rw [show (String.mk ("session_id=".data ++ v1 ++ '=' :: v2)).data =
        ("session_id=".data ++ v1 ++ '=' :: v2) from rfl]
    rw [hcs, pySplit_append '=' _ _ heq, pySplit_append '=' _ _ h1]
    rfl
  rw [hsplit2]
  simp only [List.getD_cons_zero, List.getD_cons_succ]
  have hstrip1 : pyStrip "session_id" = "session_id" := by decide
  have hstrip2 : pyStrip (String.mk v1) = String.mk v1 := by
    unfold pyStrip
    rw [show (String.mk v1).data = v1 from rfl, hstrip]
  rw [hstrip1, hstrip2]
  rfl

/-- Witness for C10 at the concrete value `a:b=c`. -/
theorem C10_witness :
    dictGet (parseCookies (String.mk ("session_id=".data ++ "a:b".data ++ '=' :: "c".data)))
        "session_id" = some (String.mk "a:b".data) :=
  C10_cookie_value_truncated.1 "a:b".data "c".data (by decide) (by decide) (by decide) (by decide)
